import Mathlib

/-!
# Chatbot session orchestrator (`responsesAPIchatbot.js`)

A shallow embedding of the multi-user chatbot skeleton: the tool-directive
parser, the context-reset (rollover) helpers, the per-request body of
`processMessageForUser`, and the two entry points `sendMessage` and
`processMultipleUsers`.

Conventions of the embedding.

* JavaScript strings that the code inspects character by character (model
  output, user messages, prompts) are `Text = List Char`; identifiers that
  are only compared or stored (chat ids, response ids, roles) are `String`.
* The external collaborators (the OpenAI client, the session manager, the
  tool handlers, the clock) are an explicit oracle `Env`: the outcome of the
  n-th backend call of a run, of the n-th session update of a run, and so on.
* Mutable module state (`activeUserSessions`) and the session store are
  fields of an explicit `World` that every operation takes and returns.
-/

namespace Chatbot

/-! ## Configuration -/

/-- Source line 13: `const CONTEXT_PAIRS_LIMIT = 6`. -/
def CONTEXT_PAIRS_LIMIT : Int := 6

/-- Source line 14: `const MAX_TOKENS = 4000`. -/
def MAX_TOKENS : Nat := 4000

/-! ## Text utilities (JavaScript string primitives used by the source) -/

/-- Texts that the code scans: a sequence of characters. -/
abbrev Text := List Char

/-- JavaScript truthiness of a string: non-empty. -/
def truthy (s : Text) : Bool := !s.isEmpty

/-- The JavaScript `a || b` on strings. -/
def orElse (a b : Text) : Text := if truthy a then a else b

/-- `String.prototype.includes`: `sub` occurs somewhere in `s`. -/
def includes : Text → Text → Bool
  | [], sub => sub.isPrefixOf []
  | c :: cs, sub => sub.isPrefixOf (c :: cs) || includes cs sub

/-- `String.prototype.split` with a one-character separator: the pieces
between the separators, in order (`"".split(":")` is `[""]`). -/
def jsSplit (sep : Char) : Text → List Text
  | [] => [[]]
  | c :: cs =>
    if c = sep then [] :: jsSplit sep cs
    else
      match jsSplit sep cs with
      | [] => [[c]]
      | piece :: rest => (c :: piece) :: rest

/-- `Array.prototype.join` with a one-character separator. -/
def jsJoin (sep : Char) : List Text → Text
  | [] => []
  | [piece] => piece
  | piece :: rest => piece ++ sep :: jsJoin sep rest

/-- White space and line terminators stripped by `String.prototype.trim`. -/
def jsIsWhitespace (c : Char) : Bool :=
  let n := c.toNat
  n = 0x09 || n = 0x0A || n = 0x0B || n = 0x0C || n = 0x0D || n = 0x20 ||
  n = 0xA0 || n = 0x1680 || (0x2000 ≤ n && n ≤ 0x200A) || n = 0x2028 ||
  n = 0x2029 || n = 0x202F || n = 0x205F || n = 0x3000 || n = 0xFEFF

/-- The test `s.trim() !== ''`: some character of `s` is not white space. -/
def trimNonEmpty (s : Text) : Bool := s.any (fun c => !jsIsWhitespace c)

/-- `Array.prototype.slice(-n)`: the last `n` elements (all of them when the
array is shorter). For `n = 0` JavaScript's `slice(-0)` is the whole array. -/
def sliceLast {α : Type} (n : Nat) (xs : List α) : List α :=
  if n = 0 then xs else xs.drop (xs.length - n)

/-! ## Context reset helpers (source section 4) -/

/-- Source lines 193-195: `currentCounter >= CONTEXT_PAIRS_LIMIT - 1`. -/
def shouldResetAfterThisResponse (currentCounter : Int) : Bool :=
  decide (currentCounter ≥ CONTEXT_PAIRS_LIMIT - 1)

/-- One entry of `session.chatHistory`: `{ role, message }`. An absent
`message` is the empty text (both are falsy in the filter of line 373). -/
structure Msg where
  role : String
  message : Text
deriving DecidableEq, Repr

/-- Source lines 198-218. `chatHistory` is `none` when the session has no
such field (`!chatHistory`). -/
def getRecentMessagesWithCurrent (chatHistory : Option (List Msg))
    (currentUserMessage currentAIResponse : Text) : List Msg :=
  match chatHistory with
  | none => []
  | some history =>
    if history.length = 0 then []
    else
      let conversationMessages :=
        history.filter (fun msg => msg.role = "user" || msg.role = "assistant")
      let recentConversation :=
        sliceLast (2 * (CONTEXT_PAIRS_LIMIT - 1)).toNat conversationMessages
      recentConversation ++
        [Msg.mk "user" currentUserMessage, Msg.mk "assistant" currentAIResponse]

/-- Source lines 372-374: `msg.message && msg.message.trim() !== ''`. -/
def validMessage (msg : Msg) : Bool := truthy msg.message && trimNonEmpty msg.message

/-- The rollover seed of `processMessageForUser` (lines 366-374):
`getRecentMessagesWithCurrent` followed by the `validMessages` filter. -/
def rolloverSeed (chatHistory : Option (List Msg)) (message finalResponse : Text) : List Msg :=
  (getRecentMessagesWithCurrent chatHistory message finalResponse).filter validMessage

/-- The rollover seed in the words of the specification: the last
`2*(limit-1)` history entries, then the just-completed exchange, with the
entries whose text is empty removed. -/
def buildRolloverSeedSpec (history : List Msg) (currentUserText currentAssistantText : Text) :
    List Msg :=
  (sliceLast (2 * (CONTEXT_PAIRS_LIMIT - 1)).toNat history ++
    [Msg.mk "user" currentUserText, Msg.mk "assistant" currentAssistantText]).filter
    (fun msg => !msg.message.isEmpty)

/-! ## Prompt construction (source section 2) -/

/-- `Array.prototype.join` with an arbitrary separator. -/
def joinWith (sep : Text) : List Text → Text
  | [] => []
  | [piece] => piece
  | piece :: rest => piece ++ sep ++ joinWith sep rest

/-- Source lines 82-103: the system prompt template. -/
def systemPrompt : Text :=
  ("# ROLE: [YOUR BOT NAME] - [BOT PURPOSE]\n\n" ++
   "[Describe your bot's purpose and personality here]\n\n" ++
   "# TOOLS & INSTRUCTIONS:\n" ++
   "You have access to the following tools. To use a tool, respond EXACTLY with:\n" ++
   "TOOL_CALL:tool_name:parameters\n\n" ++
   "Available tools:\n" ++
   "1. searchDatabase - Use for: [describe when to use]\n" ++
   "2. processData - Use for: [describe when to use]\n" ++
   "[Add descriptions for other tools]\n\n" ++
   "# RESPONSE FORMATS:\n" ++
   "- [Specify expected response formats for each tool]\n" ++
   "- [Specify general conversation format]\n" ++
   "- [Any specific rules or constraints]\n\n" ++
   "# GENERAL BEHAVIOR:\n" ++
   "- [Bot personality traits]\n" ++
   "- [Interaction guidelines]\n" ++
   "- [Context handling rules]").toList

/-- Source lines 106-127. The session context is accepted and not used (the
branch on it is empty in the source). -/
def createEnhancedSystemPrompt (_sessionContext : Option Text)
    (userHistory : Option (List Text)) : Text :=
  let contextInfo : Text := "🔄 CURRENT CONTEXT: No specific context available.".toList
  let historyInfo : Text :=
    match userHistory with
    | some history =>
      if history.length > 0 then
        "\n📝 RECENT INTERACTIONS: ".toList ++ joinWith " → ".toList (sliceLast 3 history)
      else []
    | none => []
  systemPrompt ++ "\n\n# CURRENT SESSION CONTEXT:\n".toList ++ contextInfo ++ historyInfo ++
    ("\n\n# TOOL USAGE REMINDER:\n" ++
     "- Call tools EXACTLY: TOOL_CALL:tool_name:parameters\n" ++
     "- Wait for tool results before continuing\n" ++
     "- Format tool responses appropriately").toList

/-! ## Errors -/

/-- The errors a request can end with, tagged by where they are thrown. -/
inductive Error where
  /-- Line 443: `new Error("Please wait for your previous request to complete.")`. -/
  | busy
  /-- Line 294: `new Error("No AI response text received from OpenAI")`. -/
  | emptyResponse
  /-- Thrown by `client.responses.create`, with its message. -/
  | transport (msg : Text)
  /-- Thrown by the session manager (`getOrCreateSession`, `updateSession`). -/
  | store (msg : Text)
  /-- Line 161: the `TypeError` that reading `error.message` throws in
  the `catch` block of `executeToolFromCommand` when the value the handler
  threw is `null` or `undefined`. -/
  | tool (msg : Text)
deriving DecidableEq, Repr

deriving instance DecidableEq for Except

/-- The `message` of an error. -/
def Error.message : Error → Text
  | .busy => "Please wait for your previous request to complete.".toList
  | .emptyResponse => "No AI response text received from OpenAI".toList
  | .transport msg => msg
  | .store msg => msg
  | .tool msg => msg

/-- An error raised by a backend call or by the empty-text check. -/
def Error.isBackendFailure : Error → Bool
  | .emptyResponse => true
  | .transport _ => true
  | _ => false

/-! ## Tool directive protocol (source section 3 and lines 300-304) -/

/-- The directive marker `TOOL_CALL:`. -/
def toolCallMarker : Text := ['T', 'O', 'O', 'L', '_', 'C', 'A', 'L', 'L', ':']

/-- The regular expression `/TOOL_CALL:[^\n]+/` anchored at the start of `s`:
the marker followed by the longest non-empty run of characters other than
the line feed. -/
def matchToolCallHere (s : Text) : Option Text :=
  if toolCallMarker.isPrefixOf s then
    let body := (s.drop toolCallMarker.length).takeWhile (fun c => c != '\n')
    if body.isEmpty then none else some (toolCallMarker ++ body)
  else none

/-- The call `aiText.match(/TOOL_CALL:[^\n]+/)`: the leftmost match, `none`
when there is none. -/
def matchToolCall : Text → Option Text
  | [] => none
  | c :: cs =>
    match matchToolCallHere (c :: cs) with
    | some found => some found
    | none => matchToolCall cs

/-- Source lines 303-304: `toolCallMatch ? toolCallMatch[0] : aiText`. -/
def toolCommandOf (aiText : Text) : Text :=
  match matchToolCall aiText with
  | some found => found
  | none => aiText

/-- The result of a tool: `{ success, data, message }`. `data` is the JSON
rendering of the value, `none` for `null`. -/
structure ToolResult where
  success : Bool
  data : Option Text
  message : Text
deriving DecidableEq, Repr

/-- What a handler can throw (or reject with), as the `catch` block of lines
160-167 sees it: a value whose `message` can be read, with the text that
`${error.message}` renders (the message of an `Error`, `undefined` for a
thrown string or number), or one of the two values on which reading
`.message` itself throws. -/
inductive Thrown where
  | withMessage (msg : Text)
  | null
  | undefined
deriving DecidableEq, Repr

/-- A tool handler `async (parameters, chatId) => ...`: it returns a result
or throws a value. A handler that resolves to `undefined` or `null` makes
line 158 (`result.message`) throw a `TypeError` inside the same `try`, and
is a handler that throws a value with a message here. -/
abbrev Handler := Text → String → Except Thrown ToolResult

/-- The table `availableTools`: the handler registered under a name, if any.
The two example tools of the source are placeholders; the table is a
parameter of the model. A name that the object inherits (such as
`toString`) looks up a value without a `function` to call; the call of line
157 then throws inside the `try`, so such a name has a handler that always
throws. -/
abbrev ToolTable := Text → Option Handler

/-- Source lines 136-142: the split of the command into tool name and
parameters; `none` is the `return null` of line 138. -/
def parseToolCommand (toolCommand currentMessage : Text) : Option (Text × Text) :=
  let parts := jsSplit ':' toolCommand
  if parts.length < 2 || parts.head? ≠ some "TOOL_CALL".toList then none
  else
    let toolName := parts.getD 1 []
    let parameters := orElse (jsJoin ':' (parts.drop 2)) currentMessage
    some (toolName, parameters)

/-- Source lines 156-167: the handler is called inside `try`. A result is
returned as it is. A thrown value goes to the `catch` block, which reads
`error.message` (line 161) before it builds the failure result: on a value
with a readable message the failure result is returned, on `null` and
`undefined` the read throws a `TypeError` that leaves the function. -/
def invokeTool (tool : Handler) (parameters : Text) (chatId : String) :
    Except Error ToolResult :=
  match tool parameters chatId with
  | .ok result => .ok result
  | .error (.withMessage msg) =>
    .ok { success := false, data := none, message := "Tool execution failed: ".toList ++ msg }
  | .error .null =>
    .error (.tool "Cannot read properties of null (reading 'message')".toList)
  | .error .undefined =>
    .error (.tool "Cannot read properties of undefined (reading 'message')".toList)

/-- Source lines 134-168. `.ok none` is the `null` of line 138, `.error` an
error thrown out of the function. -/
def executeToolFromCommand (availableTools : ToolTable)
    (toolCommand currentMessage : Text) (chatId : String) : Except Error (Option ToolResult) :=
  match parseToolCommand toolCommand currentMessage with
  | none => .ok none
  | some (toolName, parameters) =>
    match availableTools toolName with
    | none =>
      .ok (some { success := false, data := none,
                  message := "Tool \"".toList ++ toolName ++ "\" is not available".toList })
    | some tool =>
      match invokeTool tool parameters chatId with
      | .ok result => .ok (some result)
      | .error err => .error err

/-! ## Backend responses (source lines 171-186) -/

/-- One block of `item.content`. An absent `text` is the empty text. -/
structure ContentBlock where
  type : String
  text : Text
deriving DecidableEq, Repr

/-- One item of `response.output`; `content` is `none` when absent. -/
structure OutputItem where
  type : String
  content : Option (List ContentBlock)
deriving DecidableEq, Repr

/-- A response of the Responses API; `output` is `none` when the field is
absent or not an array. -/
structure Response where
  id : String
  output : Option (List OutputItem)
deriving DecidableEq, Repr

/-- The inner loop of `extractResponseText` (lines 178-182). -/
def firstBlockText : List ContentBlock → Option Text
  | [] => none
  | contentBlock :: rest =>
    if (contentBlock.type = "output_text" || contentBlock.type = "text") &&
        truthy contentBlock.text then some contentBlock.text
    else firstBlockText rest

/-- The outer loop of `extractResponseText` (lines 176-185). -/
def firstItemText : List OutputItem → Text
  | [] => []
  | item :: rest =>
    if item.type = "message" then
      match item.content with
      | some blocks =>
        match firstBlockText blocks with
        | some text => text
        | none => firstItemText rest
      | none => firstItemText rest
    else firstItemText rest

/-- Source lines 171-186. -/
def extractResponseText (response : Response) : Text :=
  match response.output with
  | none => []
  | some items => firstItemText items

/-! ## Sessions and the world -/

/-- A session record as read by `processMessageForUser`: every field may be
absent. `chatSessionID` is the continuation token, `sessionLengthCounter`
the turn counter. -/
structure Session where
  chatSessionID : Option String
  sessionLengthCounter : Option Int
  chatHistory : Option (List Msg)
  customContext : Option Text
  interactionHistory : Option (List Text)

/-- The partial record passed to `sessionManager.updateSession`: the fields
that are present. -/
structure SessionUpdate where
  chatSessionID : Option String
  sessionLengthCounter : Option Int
deriving DecidableEq, Repr

/-- Modelled from the spec: `sessionManager.updateSession` (the module
`../services/sessionManager` is not part of the sources) merges the fields
that are present into the stored record and leaves the others. -/
def applyUpdate (session : Session) (updateData : SessionUpdate) : Session :=
  { session with
    chatSessionID :=
      match updateData.chatSessionID with
      | some id => some id
      | none => session.chatSessionID
    sessionLengthCounter :=
      match updateData.sessionLengthCounter with
      | some n => some n
      | none => session.sessionLengthCounter }

/-- One entry of `activeUserSessions`. -/
structure Slot where
  isProcessing : Bool
  lastRequestTime : Nat
deriving DecidableEq, Repr

/-- The `Map` `activeUserSessions`, in insertion order, one entry per key. -/
abbrev SlotTable := List (String × Slot)

/-- `Map.prototype.get`. -/
def SlotTable.get (table : SlotTable) (chatId : String) : Option Slot :=
  table.lookup chatId

/-- `Map.prototype.set`: an existing key keeps its place, a new one goes last. -/
def SlotTable.set (table : SlotTable) (chatId : String) (slot : Slot) : SlotTable :=
  if (table.lookup chatId).isSome then
    table.map (fun entry => if entry.1 = chatId then (chatId, slot) else entry)
  else table ++ [(chatId, slot)]

/-- `Map.prototype.delete`. -/
def SlotTable.delete (table : SlotTable) (chatId : String) : SlotTable :=
  table.filter (fun entry => entry.1 ≠ chatId)

/-- Lines 240-243: mark the user as processing. -/
def markProcessing (table : SlotTable) (chatId : String) (now : Nat) : SlotTable :=
  table.set chatId { isProcessing := true, lastRequestTime := now }

/-- Lines 441-442: `activeSession && activeSession.isProcessing`. -/
def isBusy (table : SlotTable) (chatId : String) : Bool :=
  match table.get chatId with
  | some activeSession => activeSession.isProcessing
  | none => false

/-- One message of a payload's `input`. -/
structure InputMessage where
  type : String
  role : String
  content : Text
deriving DecidableEq, Repr

/-- The argument of `client.responses.create`; `previous_response_id` is
`none` when the field is absent or `undefined`. -/
structure Payload where
  model : String
  input : List InputMessage
  previous_response_id : Option String
  max_output_tokens : Nat
deriving DecidableEq, Repr

/-- The module state, the session store and a trace of the external calls.
Modelled from the spec: the session store of `../services/sessionManager`
(not part of the sources) is a total map from chat id to session record;
`getOrCreateSession` reads it, an identity never seen before holding
whatever fresh record the store gives it. `calls` lists the payloads handed
to `client.responses.create`, `updates` the session updates that were
applied, both oldest first. -/
structure World where
  activeUserSessions : SlotTable
  sessions : String → Session
  calls : List Payload
  updates : List (String × SessionUpdate)

/-- The behaviour of the external collaborators during one run of
`processMessageForUser`. -/
structure Env where
  /-- The value of `Date.now()`. -/
  now : Nat
  /-- The message of the error thrown by `getOrCreateSession`, if it throws. -/
  getOrCreateSession : Option Text
  /-- The outcome of the n-th call of `client.responses.create` in the run. -/
  create : Nat → Except Text Response
  /-- The message of the error thrown by the n-th `updateSession` of the
  run, if it throws. -/
  updateSession : Nat → Option Text
  /-- The table `availableTools`. -/
  availableTools : ToolTable

/-- The argument of `processMessageForUser` and `sendMessage`. -/
structure Params where
  message : Text
  sessionID : Option String
  chatId : String

/-- The state threaded through one run: the world, and how many backend
calls and session updates the run has made so far. -/
structure RunState where
  world : World
  callIdx : Nat
  updIdx : Nat

/-- The state after one more payload was handed to the backend. -/
def RunState.withCall (st : RunState) (payload : Payload) : RunState :=
  { st with
    world := { st.world with calls := st.world.calls ++ [payload] }
    callIdx := st.callIdx + 1 }

/-- The state after a session update was applied to the store. -/
def RunState.withUpdate (st : RunState) (chatId : String) (updateData : SessionUpdate) :
    RunState :=
  { st with
    world :=
      { st.world with
        sessions :=
          Function.update st.world.sessions chatId
            (applyUpdate (st.world.sessions chatId) updateData)
        updates := st.world.updates ++ [(chatId, updateData)] }
    updIdx := st.updIdx + 1 }

/-- The state after a session update that threw. -/
def RunState.withFailedUpdate (st : RunState) : RunState :=
  { st with updIdx := st.updIdx + 1 }

/-- The call `await client.responses.create(payload)`: the payload is
recorded, and the call returns a response or throws. -/
def callBackend (env : Env) (st : RunState) (payload : Payload) :
    RunState × Except Error Response :=
  (st.withCall payload,
   match env.create st.callIdx with
   | .ok response => .ok response
   | .error msg => .error (.transport msg))

/-- Source lines 221-229: `updateSessionFields`, which rethrows what
`sessionManager.updateSession` throws. Modelled from the spec: an update
that throws leaves the stored record as it was. -/
def updateSessionFields (env : Env) (st : RunState) (chatId : String)
    (updateData : SessionUpdate) : RunState × Except Error Unit :=
  match env.updateSession st.updIdx with
  | some msg => (st.withFailedUpdate, .error (.store msg))
  | none => (st.withUpdate chatId updateData, .ok ())

/-! ## Core message processing (source section 5) -/

/-- Line 357: the fixed answer when the tool did not succeed. -/
def toolFailureText : Text :=
  "I encountered an error while processing your request. Please try again.".toList

/-- `JSON.stringify(toolResult.data, null, 2)`. -/
def jsonStringify (data : Option Text) : Text :=
  match data with
  | some rendered => rendered
  | none => "null".toList

/-- Lines 262-281: the first payload. `previousResponseId || undefined`
drops an absent or empty token. -/
def firstPayload (enhancedSystemPrompt message : Text) (previousResponseId : Option String) :
    Payload :=
  { model := "gpt-4o-mini"
    input := [InputMessage.mk "message" "developer" enhancedSystemPrompt,
              InputMessage.mk "message" "user" message]
    previous_response_id :=
      match previousResponseId with
      | some id => if id = "" then none else some id
      | none => none
    max_output_tokens := MAX_TOKENS }

/-- Lines 313-346: the payload that hands the tool result back to the model,
chained off the first response. -/
def toolProcessingPayload (enhancedSystemPrompt message toolCommand toolName : Text)
    (toolResult : ToolResult) (newResponseID : String) : Payload :=
  { model := "gpt-4o-mini"
    input :=
      [InputMessage.mk "message" "developer"
         (enhancedSystemPrompt ++ "\n\nTOOL RESULT PROCESSING: The tool \"".toList ++ toolName ++
           ("\" returned results. \n" ++
            "Now provide a helpful response to the user based on these results.").toList),
       InputMessage.mk "message" "user" message,
       InputMessage.mk "message" "assistant" toolCommand,
       InputMessage.mk "message" "user"
         ("Tool Results: ".toList ++ jsonStringify toolResult.data ++
           "\n\nBased on these results, provide a helpful response to my original message.".toList)]
    previous_response_id := some newResponseID
    max_output_tokens := MAX_TOKENS }

/-- Lines 377-397: the payload that opens the new backend session; it has no
`previous_response_id`. The messages kept by the filter have a non-empty
`message`, which is what `msg.message || msg.content` then evaluates to. -/
def resetPayload (session : Session) (validMessages : List Msg) : Payload :=
  { model := "gpt-4o-mini"
    input :=
      InputMessage.mk "message" "developer"
          (createEnhancedSystemPrompt session.customContext session.interactionHistory ++
            "\n\nCONTEXT: Continuing from recent conversation.".toList) ::
        validMessages.map (fun msg => InputMessage.mk "message" msg.role msg.message)
    previous_response_id := none
    max_output_tokens := MAX_TOKENS }

/-- Lines 299-359 (step 6 and 7): the tool detour. Returns `finalResponse`.
An error thrown by `executeToolFromCommand` (line 307) leaves the `try`
block of the run. -/
def toolDetour (env : Env) (st : RunState) (params : Params) (enhancedSystemPrompt : Text)
    (newResponseID : String) (aiText : Text) : RunState × Except Error Text :=
  if includes aiText toolCallMarker then
    let toolCommand := toolCommandOf aiText
    match executeToolFromCommand env.availableTools toolCommand params.message params.chatId with
    | .error err => (st, .error err)
    | .ok (some toolResult) =>
      if toolResult.success then
        let toolName := (jsSplit ':' toolCommand).getD 1 []
        let called := callBackend env st
          (toolProcessingPayload enhancedSystemPrompt params.message toolCommand toolName
            toolResult newResponseID)
        match called.2 with
        | .error err => (called.1, .error err)
        | .ok processedResponse =>
          let finalResponse := orElse (extractResponseText processedResponse) toolResult.message
          let updated := updateSessionFields env called.1 params.chatId
            { chatSessionID := some processedResponse.id, sessionLengthCounter := none }
          match updated.2 with
          | .error err => (updated.1, .error err)
          | .ok _ => (updated.1, .ok finalResponse)
      else (st, .ok toolFailureText)
    | .ok none => (st, .ok toolFailureText)
  else (st, .ok aiText)

/-- Lines 361-417 (step 8): the context reset, or the normal increment. -/
def persistSession (env : Env) (st : RunState) (params : Params) (session : Session)
    (currentCounter : Int) (resetAfterThisResponse : Bool) (newResponseID : String)
    (finalResponse : Text) : RunState × Except Error Unit :=
  if resetAfterThisResponse then
    let validMessages := rolloverSeed session.chatHistory params.message finalResponse
    let called := callBackend env st (resetPayload session validMessages)
    match called.2 with
    | .error err => (called.1, .error err)
    | .ok newSessionResponse =>
      updateSessionFields env called.1 params.chatId
        { chatSessionID := some newSessionResponse.id, sessionLengthCounter := some 0 }
  else
    updateSessionFields env st params.chatId
      { sessionLengthCounter := some (currentCounter + 1), chatSessionID := some newResponseID }

/-- Lines 248-420: the body of the `try` block after the slot is marked,
for the session record that `getOrCreateSession` hands to the run. -/
def processFrom (session : Session) (env : Env) (st : RunState) (params : Params) :
    RunState × Except Error Text :=
  match env.getOrCreateSession with
  | some msg => (st, .error (.store msg))
  | none =>
    let currentCounter := session.sessionLengthCounter.getD 0
    let resetAfterThisResponse := shouldResetAfterThisResponse currentCounter
    let previousResponseId := session.chatSessionID
    let enhancedSystemPrompt :=
      createEnhancedSystemPrompt session.customContext session.interactionHistory
    let called := callBackend env st
      (firstPayload enhancedSystemPrompt params.message previousResponseId)
    match called.2 with
    | .error err => (called.1, .error err)
    | .ok response =>
      let newResponseID := response.id
      let aiText := extractResponseText response
      if !truthy aiText then (called.1, .error .emptyResponse)
      else
        let detour := toolDetour env called.1 params enhancedSystemPrompt newResponseID aiText
        match detour.2 with
        | .error err => (detour.1, .error err)
        | .ok finalResponse =>
          let persisted := persistSession env detour.1 params session currentCounter
            resetAfterThisResponse newResponseID finalResponse
          match persisted.2 with
          | .error err => (persisted.1, .error err)
          | .ok _ => (persisted.1, .ok finalResponse)

/-- Lines 248-420 for a run on its own: the session record is the one in
the store when the run starts. -/
def processBody (env : Env) (st : RunState) (params : Params) : RunState × Except Error Text :=
  processFrom (st.world.sessions params.chatId) env st params

/-- Lines 240-243: the state in which the body of the `try` block starts,
with the slot of the identity marked as processing. -/
def startState (env : Env) (w : World) (params : Params) : RunState :=
  { world :=
      { w with
        activeUserSessions := markProcessing w.activeUserSessions params.chatId env.now }
    callIdx := 0
    updIdx := 0 }

/-- Lines 425-428: the `finally` block, `activeUserSessions.delete(chatId)`. -/
def releaseSlot (st : RunState) (chatId : String) : World :=
  { st.world with activeUserSessions := st.world.activeUserSessions.delete chatId }

/-- Source lines 235-429: `processMessageForUser`. The slot is marked, the
body runs, and the `finally` block deletes the slot whether the body
returned or threw; the `catch` block rethrows the same error. -/
def processMessageForUser (env : Env) (w : World) (params : Params) :
    World × Except Error Text :=
  let ran := processBody env (startState env w params) params
  (releaseSlot ran.1 params.chatId, ran.2)

/-- The first payload of a run, as built from the stored session. -/
def firstCallPayload (w : World) (params : Params) : Payload :=
  firstPayload
    (createEnhancedSystemPrompt (w.sessions params.chatId).customContext
      (w.sessions params.chatId).interactionHistory)
    params.message (w.sessions params.chatId).chatSessionID

/-- The payload of the tool-result follow-up call for a given model output. -/
def followUpPayload (params : Params) (prompt : Text) (newResponseID : String) (aiText : Text)
    (toolResult : ToolResult) : Payload :=
  toolProcessingPayload prompt params.message (toolCommandOf aiText)
    ((jsSplit ':' (toolCommandOf aiText)).getD 1 []) toolResult newResponseID

/-- The payload of the context-reset call of a run that ends with the
answer `finalResponse`. -/
def resetCallPayload (w : World) (params : Params) (finalResponse : Text) : Payload :=
  resetPayload (w.sessions params.chatId)
    (rolloverSeed (w.sessions params.chatId).chatHistory params.message finalResponse)

/-- The turn counter that a run reads: `session.sessionLengthCounter || 0`. -/
def turnCounter (w : World) (chatId : String) : Int :=
  (w.sessions chatId).sessionLengthCounter.getD 0

/-- The state of a run after its first backend call. -/
def afterFirstCall (env : Env) (w : World) (params : Params) : RunState :=
  (startState env w params).withCall (firstCallPayload w params)

/-- The run's tool detour on the text of a first response. -/
def runDetour (env : Env) (w : World) (params : Params) (first : Response) :
    RunState × Except Error Text :=
  toolDetour env (afterFirstCall env w params) params
    (createEnhancedSystemPrompt (w.sessions params.chatId).customContext
      (w.sessions params.chatId).interactionHistory)
    first.id (extractResponseText first)

/-- The run's persistence step from a state, with a final answer. -/
def runPersist (env : Env) (w : World) (params : Params) (first : Response) (st : RunState)
    (final : Text) : RunState × Except Error Unit :=
  persistSession env st params (w.sessions params.chatId) (turnCounter w params.chatId)
    (shouldResetAfterThisResponse (turnCounter w params.chatId)) first.id final

/-! ## Entry points (source section 6) -/

/-- Source lines 436-458: `sendMessage`. -/
def sendMessage (env : Env) (w : World) (params : Params) : World × Except Error Text :=
  if isBusy w.activeUserSessions params.chatId then (w, .error .busy)
  else processMessageForUser env w params

/-- Line 465, the synchronous part of `userRequests.map(...)`: every run is
started before any of them goes on, so every slot is marked first. -/
def startAll (w : World) (userRequests : List (Env × Params)) : World :=
  { w with
    activeUserSessions :=
      userRequests.foldl
        (fun table request => markProcessing table request.2.chatId request.1.now)
        w.activeUserSessions }

/-- The bodies of the runs of a batch, each with the behaviour of its
collaborators and with the session record it read when the batch started
(`snapshot`), so two runs for one identity read the same counter and token.
What a run returns depends on its collaborators and on that record only, so
the list of outcomes is the same for every interleaving of the runs. The
world that is threaded through is the one of the interleaving in which the
runs go on and complete in submission order. -/
def runBodies (snapshot : String → Session) (w : World) :
    List (Env × Params) → World × List (Except Error Text)
  | [] => (w, [])
  | (env, params) :: rest =>
    let ran := processFrom (snapshot params.chatId) env
      { world := w, callIdx := 0, updIdx := 0 } params
    let others := runBodies snapshot (releaseSlot ran.1 params.chatId) rest
    (others.1, ran.2 :: others.2)

/-- The runs started by `userRequests.map(params => processMessageForUser(params))`:
all of them start (each marks its slot and issues its call of
`getOrCreateSession`, line 249, before any backend call is made), reading
the store as it is then, and then their bodies run. -/
def runAll (w : World) (userRequests : List (Env × Params)) :
    World × List (Except Error Text) :=
  runBodies w.sessions (startAll w userRequests) userRequests

/-- The rejection that `Promise.all` reports: the one of the task that
settles first in time (`settledAt i` is the time at which task `i` settles;
of two tasks settling together the earlier in the list wins). The result is
the settle time and the error. -/
def firstRejection {ε α : Type} (settledAt : Nat → Nat) :
    Nat → List (Except ε α) → Option (Nat × ε)
  | _, [] => none
  | i, .ok _ :: rest => firstRejection settledAt (i + 1) rest
  | i, .error err :: rest =>
    match firstRejection settledAt (i + 1) rest with
    | some (t, later) => if t < settledAt i then some (t, later) else some (settledAt i, err)
    | none => some (settledAt i, err)

/-- The values of the fulfilled tasks, in order. -/
def fulfilledValues {ε α : Type} : List (Except ε α) → List α
  | [] => []
  | .ok value :: rest => value :: fulfilledValues rest
  | .error _ :: rest => fulfilledValues rest

/-- `Promise.all(tasks)`: rejects with the first rejection, or fulfils with
the list of all values in the order of the tasks. -/
def promiseAll {ε α : Type} (settledAt : Nat → Nat) (outcomes : List (Except ε α)) :
    Except ε (List α) :=
  match firstRejection settledAt 0 outcomes with
  | some (_, err) => .error err
  | none => .ok (fulfilledValues outcomes)

/-- Source lines 461-473: `processMultipleUsers`. -/
def processMultipleUsers (settledAt : Nat → Nat) (w : World)
    (userRequests : List (Env × Params)) : World × Except Error (List Text) :=
  let tasks := runAll w userRequests
  (tasks.1, promiseAll settledAt tasks.2)

/-! ## Interleaving of submissions

`processMessageForUser` runs synchronously up to its first `await`, so a
submission marks the slot before any other code runs; a run then stays in
flight until its `finally` block. The guard state below keeps the slot
table and the runs in flight, one entry per run. -/

/-- The slot table and the chat ids of the runs of `processMessageForUser`
that have started and not yet completed (one entry per run). -/
structure GuardState where
  activeUserSessions : SlotTable
  inFlight : List String

/-- What can happen to the guard state. -/
inductive GuardEvent where
  /-- A call of `sendMessage` for a chat id, at a time. -/
  | send (chatId : String) (now : Nat)
  /-- A call of `processMultipleUsers` with requests for these chat ids. -/
  | batch (chatIds : List String) (now : Nat)
  /-- A run in flight for the chat id reaches its `finally` block. -/
  | finish (chatId : String)

/-- The synchronous start of `processMessageForUser`. -/
def startRun (g : GuardState) (chatId : String) (now : Nat) : GuardState :=
  { activeUserSessions := markProcessing g.activeUserSessions chatId now
    inFlight := chatId :: g.inFlight }

/-- One event. The second component lists the chat ids whose submission was
rejected with the busy error. -/
def guardStep (g : GuardState) : GuardEvent → GuardState × List String
  | .send chatId now =>
    if isBusy g.activeUserSessions chatId then (g, [chatId])
    else (startRun g chatId now, [])
  | .batch chatIds now =>
    (chatIds.foldl (fun acc chatId => startRun acc chatId now) g, [])
  | .finish chatId =>
    if chatId ∈ g.inFlight then
      ({ activeUserSessions := g.activeUserSessions.delete chatId
         inFlight := g.inFlight.erase chatId }, [])
    else (g, [])

/-- A sequence of events, with all the rejections. -/
def guardRun (g : GuardState) : List GuardEvent → GuardState × List String
  | [] => (g, [])
  | event :: rest =>
    let stepped := guardStep g event
    let after := guardRun stepped.1 rest
    (after.1, stepped.2 ++ after.2)

/-- The exclusion invariant: no identity has two runs in flight, and every
identity with a run in flight has a busy slot. -/
def Exclusive (g : GuardState) : Prop :=
  ∀ chatId : String,
    g.inFlight.count chatId ≤ 1 ∧
    (chatId ∈ g.inFlight → isBusy g.activeUserSessions chatId = true)

/-- An event that is not a batch submission. -/
def GuardEvent.isSingle : GuardEvent → Bool
  | .batch _ _ => false
  | _ => true

/-! ## Tool lookup (source line 145) and the periodic cleanup (source section 7) -/

/-- The names that every plain object inherits from `Object.prototype`. -/
def objectPrototypeNames : List Text :=
  ["constructor".toList, "__proto__".toList, "hasOwnProperty".toList,
   "isPrototypeOf".toList, "propertyIsEnumerable".toList, "toLocaleString".toList,
   "toString".toList, "valueOf".toList, "__defineGetter__".toList,
   "__defineSetter__".toList, "__lookupGetter__".toList, "__lookupSetter__".toList]

/-- Line 145, `availableTools[toolName]` on a plain object whose own
properties are the registered tools: a registered name gives its tool; an
inherited name gives a value that is truthy and has no `function`, so the
call of line 157 throws a `TypeError` inside the `try`; any other name gives
`undefined`. -/
def lookupTool (registered : ToolTable) : ToolTable := fun toolName =>
  match registered toolName with
  | some tool => some tool
  | none =>
    if toolName ∈ objectPrototypeNames then
      some (fun _ _ => .error (.withMessage "tool.function is not a function".toList))
    else none

/-- The timeout of the cleanup sweep, line 486: `5 * 60 * 1000`. -/
def SWEEP_TIMEOUT : Int := 5 * 60 * 1000

/-- Line 488: `now - session.lastRequestTime > timeout`. -/
def expired (timeout : Int) (now : Nat) (slot : Slot) : Bool :=
  decide ((now : Int) - (slot.lastRequestTime : Int) > timeout)

/-- Lines 487-492: the loop over the entries of `activeUserSessions`, which
deletes the key of every entry that passes the test of line 488. -/
def sweepWith (timeout : Int) (now : Nat) (table : SlotTable) : SlotTable :=
  table.foldl
    (fun live entry => if expired timeout now entry.2 then live.delete entry.1 else live)
    table

/-- Lines 484-493: one run of the periodic cleanup at the time `now`. -/
def cleanupSweep (now : Nat) (table : SlotTable) : SlotTable :=
  sweepWith SWEEP_TIMEOUT now table

/-- The sweep in the words of the specification: the slots that are not busy
and whose last activity is older than the timeout are removed. -/
def reapSpec (timeout : Int) (now : Nat) (table : SlotTable) : SlotTable :=
  table.filter (fun entry => !(!entry.2.isProcessing && expired timeout now entry.2))

/-- What the caller of `executeToolFromCommand` can rely on for a command
that names the tool `toolName` and calls it with `parameters`: a result is
returned (nothing is thrown), it is a failure with `data` null when the name
is not registered or when the registered handler throws a value with a
message, and it is what the handler returned otherwise. -/
def SafeToolOutcome (registered : ToolTable) (toolName parameters : Text) (chatId : String)
    (outcome : Except Error (Option ToolResult)) : Prop :=
  ∃ result, outcome = .ok (some result) ∧
    (registered toolName = none → result.success = false ∧ result.data = none) ∧
    (∀ tool msg, registered toolName = some tool →
      tool parameters chatId = .error (.withMessage msg) →
      result.success = false ∧ result.data = none) ∧
    (∀ tool returned, registered toolName = some tool →
      tool parameters chatId = .ok returned → result = returned)

/-! ## Concrete scenarios used by the examples below -/

/-- A session record as the store gives it to an identity never seen
before: no continuation token, turn counter 0, no history. -/
def freshSession : Session :=
  { chatSessionID := none, sessionLengthCounter := some 0, chatHistory := some [],
    customContext := none, interactionHistory := none }

/-- A world with no slot, every identity fresh, and nothing called yet. -/
def emptyWorld : World :=
  { activeUserSessions := [], sessions := fun _ => freshSession, calls := [], updates := [] }

/-- A world in which every identity has completed five turns on the
continuation token `resp_0`, with one earlier exchange in the history. -/
def fiveTurnWorld : World :=
  { activeUserSessions := []
    sessions := fun _ =>
      { chatSessionID := some "resp_0", sessionLengthCounter := some 5,
        chatHistory := some [Msg.mk "user" "Hi".toList, Msg.mk "assistant" "Hello!".toList],
        customContext := none, interactionHistory := none }
    calls := [], updates := [] }

/-- A backend response with one `output_text` block. -/
def textResponse (id : String) (text : Text) : Response :=
  { id := id
    output := some [OutputItem.mk "message" (some [ContentBlock.mk "output_text" text])] }

/-- A tool table with one tool, `searchDatabase`, that succeeds. -/
def searchTools : ToolTable := fun toolName =>
  if toolName = "searchDatabase".toList then
    some (fun _ _ => .ok { success := true, data := some "[]".toList,
                           message := "Found 0 results".toList })
  else none

/-- Collaborators that never fail: the n-th backend call answers
`texts n` under the id `ids n`. -/
def scriptedEnv (ids : Nat → String) (texts : Nat → Text) : Env :=
  { now := 0, getOrCreateSession := none
    create := fun n => .ok (textResponse (ids n) (texts n))
    updateSession := fun _ => none
    availableTools := searchTools }

/-- Response ids `resp_1`, `resp_2`, `resp_3`, ... by call index. -/
def respIds (n : Nat) : String :=
  if n = 0 then "resp_1" else if n = 1 then "resp_2" else "resp_3"

/-- A backend that answers `Hi there` to every call. -/
def plainEnv : Env := scriptedEnv respIds (fun _ => "Hi there".toList)

/-- A backend whose first answer is a tool directive and whose later
answers are plain text. -/
def toolEnv : Env :=
  scriptedEnv respIds
    (fun n => if n = 0 then "TOOL_CALL:searchDatabase:foo".toList else "Nothing found".toList)

/-- A backend whose first answer asks for a tool that is not registered. -/
def unknownToolEnv : Env :=
  scriptedEnv respIds
    (fun n => if n = 0 then "TOOL_CALL:weather:Paris".toList else "Sunny".toList)

/-- A tool table whose `searchDatabase` handler rejects with `null`. -/
def rejectingTools : ToolTable := fun toolName =>
  if toolName = "searchDatabase".toList then some (fun _ _ => .error .null) else none

/-- A backend whose first answer calls `searchDatabase`, with the tool table
whose handler rejects with `null`. -/
def rejectingEnv : Env :=
  { scriptedEnv respIds
      (fun n => if n = 0 then "TOOL_CALL:searchDatabase:foo".toList else "Nothing found".toList)
    with availableTools := lookupTool rejectingTools }

/-- Collaborators whose session store refuses every update. -/
def storeDown (env : Env) : Env :=
  { env with updateSession := fun _ => some "store down".toList }

/-- Collaborators whose backend fails on every call from the n-th on. -/
def failingFrom (env : Env) (n : Nat) : Env :=
  { env with create := fun k => if k < n then env.create k else .error "network down".toList }

/-- A request of the identity `a1`. -/
def helloA1 : Params := { message := "Hello".toList, sessionID := none, chatId := "a1" }

/-- A request of the identity `b2`. -/
def helloB2 : Params := { message := "Hello".toList, sessionID := none, chatId := "b2" }

/-! ## Theorems -/

theorem lookup_filter_ne_self (table : SlotTable) (chatId : String) :
    (table.filter (fun entry => entry.1 ≠ chatId)).lookup chatId = none := by
  induction table with
  | nil => rfl
  | cons entry rest ih =>
    obtain ⟨key, val⟩ := entry
    by_cases h : key = chatId
    · simpa [List.filter_cons, h] using ih
    · have h2 : (chatId == key) = false := by
        rw [beq_eq_false_iff_ne]
        exact fun e => h e.symm
      rw [List.filter_cons]
      simp only [ne_eq, h, not_false_eq_true, decide_True, if_true]
      rw [List.lookup_cons, h2]
      exact ih

theorem lookup_filter_ne_of_ne (table : SlotTable) (chatId other : String)
    (hne : other ≠ chatId) :
    (table.filter (fun entry => entry.1 ≠ chatId)).lookup other = table.lookup other := by
  induction table with
  | nil => rfl
  | cons entry rest ih =>
    obtain ⟨key, val⟩ := entry
    rw [List.filter_cons]
    by_cases h : key = chatId
    · subst h
      have h2 : (other == key) = false := by
        rw [beq_eq_false_iff_ne]
        exact hne
      simp only [ne_eq, not_true_eq_false, decide_False, Bool.false_eq_true, if_false]
      rw [List.lookup_cons, h2]
      simpa using ih
    · simp only [ne_eq, h, not_false_eq_true, decide_True, if_true]
      rw [List.lookup_cons, List.lookup_cons, ih]

theorem lookup_map_replace (table : SlotTable) (chatId : String) (slot : Slot)
    (h : (table.lookup chatId).isSome = true) :
    (table.map (fun entry => if entry.1 = chatId then (chatId, slot) else entry)).lookup chatId
      = some slot := by
  induction table with
  | nil => simp at h
  | cons entry rest ih =>
    obtain ⟨key, val⟩ := entry
    rw [List.map_cons]
    by_cases h1 : key = chatId
    · simp only [h1, if_true]
      rw [List.lookup_cons, beq_self_eq_true]
    · have h2 : (chatId == key) = false := by
        rw [beq_eq_false_iff_ne]
        exact fun e => h1 e.symm
      rw [List.lookup_cons, h2] at h
      simp only [h1, if_false]
      rw [List.lookup_cons, h2]
      exact ih h

theorem lookup_map_replace_of_ne (table : SlotTable) (chatId other : String) (slot : Slot)
    (hne : other ≠ chatId) :
    (table.map (fun entry => if entry.1 = chatId then (chatId, slot) else entry)).lookup other
      = table.lookup other := by
  induction table with
  | nil => rfl
  | cons entry rest ih =>
    obtain ⟨key, val⟩ := entry
    rw [List.map_cons]
    by_cases h1 : key = chatId
    · have h2 : (other == chatId) = false := by
        rw [beq_eq_false_iff_ne]
        exact hne
      simp only [h1, if_true]
      rw [List.lookup_cons, List.lookup_cons, h2]
      exact ih
    · simp only [h1, if_false]
      rw [List.lookup_cons, List.lookup_cons, ih]

theorem lookup_append_single (table : SlotTable) (chatId other : String) (slot : Slot) :
    (table ++ [(chatId, slot)]).lookup other =
      match table.lookup other with
      | some found => some found
      | none => if other = chatId then some slot else none := by
  induction table with
  | nil =>
    rw [List.nil_append, List.lookup_cons]
    by_cases h : other = chatId
    · simp [h]
    · have h2 : (other == chatId) = false := by
        rw [beq_eq_false_iff_ne]
        exact h
      simp [h, h2]
  | cons entry rest ih =>
    obtain ⟨key, val⟩ := entry
    rw [List.cons_append, List.lookup_cons, List.lookup_cons]
    cases hk : (other == key) with
    | true => rfl
    | false => exact ih

theorem SlotTable.get_delete_self (table : SlotTable) (chatId : String) :
    (table.delete chatId).get chatId = none :=
  lookup_filter_ne_self table chatId

theorem SlotTable.get_delete_of_ne (table : SlotTable) (chatId other : String)
    (hne : other ≠ chatId) : (table.delete chatId).get other = table.get other :=
  lookup_filter_ne_of_ne table chatId other hne

theorem SlotTable.get_set_self (table : SlotTable) (chatId : String) (slot : Slot) :
    (table.set chatId slot).get chatId = some slot := by
  unfold SlotTable.set SlotTable.get
  by_cases h : (table.lookup chatId).isSome = true
  · rw [if_pos h]
    exact lookup_map_replace table chatId slot h
  · rw [if_neg h, lookup_append_single]
    cases hl : table.lookup chatId with
    | none => simp
    | some found => simp [hl] at h

theorem SlotTable.get_set_of_ne (table : SlotTable) (chatId other : String) (slot : Slot)
    (hne : other ≠ chatId) : (table.set chatId slot).get other = table.get other := by
  unfold SlotTable.set SlotTable.get
  by_cases h : (table.lookup chatId).isSome = true
  · rw [if_pos h]
    exact lookup_map_replace_of_ne table chatId other slot hne
  · rw [if_neg h, lookup_append_single]
    cases hl : table.lookup other with
    | none => simp [hne]
    | some found => simp

theorem isBusy_markProcessing_self (table : SlotTable) (chatId : String) (now : Nat) :
    isBusy (markProcessing table chatId now) chatId = true := by
  simp [isBusy, markProcessing, SlotTable.get_set_self]

theorem isBusy_markProcessing_of_ne (table : SlotTable) (chatId other : String) (now : Nat)
    (hne : other ≠ chatId) :
    isBusy (markProcessing table chatId now) other = isBusy table other := by
  simp [isBusy, markProcessing, SlotTable.get_set_of_ne _ _ _ _ hne]

theorem isBusy_delete_self (table : SlotTable) (chatId : String) :
    isBusy (table.delete chatId) chatId = false := by
  simp [isBusy, SlotTable.get_delete_self]

theorem isBusy_delete_of_ne (table : SlotTable) (chatId other : String) (hne : other ≠ chatId) :
    isBusy (table.delete chatId) other = isBusy table other := by
  simp [isBusy, SlotTable.get_delete_of_ne _ _ _ hne]

/-! ### Per-identity exclusion -/

theorem exclusive_startRun (g : GuardState) (chatId : String) (now : Nat) (hg : Exclusive g)
    (hb : isBusy g.activeUserSessions chatId = false) : Exclusive (startRun g chatId now) := by
  intro other
  have hnot : chatId ∉ g.inFlight := by
    intro hmem
    rw [(hg chatId).2 hmem] at hb
    exact Bool.noConfusion hb
  show (chatId :: g.inFlight).count other ≤ 1 ∧
    (other ∈ chatId :: g.inFlight →
      isBusy (markProcessing g.activeUserSessions chatId now) other = true)
  by_cases ho : other = chatId
  · subst ho
    refine ⟨?_, fun _ => isBusy_markProcessing_self _ _ _⟩
    rw [List.count_cons_self, List.count_eq_zero_of_not_mem hnot]
  · refine ⟨?_, ?_⟩
    · rw [List.count_cons_of_ne ho]
      exact (hg other).1
    · intro hmem
      rw [isBusy_markProcessing_of_ne _ _ _ _ ho]
      rcases List.mem_cons.mp hmem with hmem | hmem
      · exact absurd hmem ho
      · exact (hg other).2 hmem

theorem exclusive_finish (g : GuardState) (chatId : String) (hg : Exclusive g) :
    Exclusive
      { activeUserSessions := g.activeUserSessions.delete chatId
        inFlight := g.inFlight.erase chatId } := by
  intro other
  show (g.inFlight.erase chatId).count other ≤ 1 ∧
    (other ∈ g.inFlight.erase chatId → isBusy (g.activeUserSessions.delete chatId) other = true)
  by_cases ho : other = chatId
  · subst ho
    have hc := (hg other).1
    have hzero : (g.inFlight.erase other).count other = 0 := by
      rw [List.count_erase_self]
      omega
    refine ⟨by omega, ?_⟩
    intro hmem
    have hpos := List.count_pos_iff.mpr hmem
    omega
  · have hcount : (g.inFlight.erase chatId).count other = g.inFlight.count other :=
      List.count_erase_of_ne ho _
    refine ⟨?_, ?_⟩
    · rw [hcount]
      exact (hg other).1
    · intro hmem
      rw [isBusy_delete_of_ne _ _ _ ho]
      exact (hg other).2 (List.mem_of_mem_erase hmem)

theorem exclusive_guardStep (g : GuardState) (event : GuardEvent) (hg : Exclusive g)
    (hs : event.isSingle = true) : Exclusive (guardStep g event).1 := by
  cases event with
  | batch chatIds now => exact Bool.noConfusion hs
  | send chatId now =>
    cases hb : isBusy g.activeUserSessions chatId with
    | true =>
      have hstep : guardStep g (.send chatId now) = (g, [chatId]) := by
        simp [guardStep, hb]
      rw [hstep]
      exact hg
    | false =>
      have hstep : guardStep g (.send chatId now) = (startRun g chatId now, []) := by
        simp [guardStep, hb]
      rw [hstep]
      exact exclusive_startRun g chatId now hg hb
  | finish chatId =>
    by_cases hm : chatId ∈ g.inFlight
    · have hstep : guardStep g (.finish chatId) =
          ({ activeUserSessions := g.activeUserSessions.delete chatId
             inFlight := g.inFlight.erase chatId }, []) := by
        simp [guardStep, hm]
      rw [hstep]
      exact exclusive_finish g chatId hg
    · have hstep : guardStep g (.finish chatId) = (g, []) := by
        simp [guardStep, hm]
      rw [hstep]
      exact hg

/-- The guard on the `sendMessage` path: starting from a state that
satisfies the exclusion invariant, any sequence of `sendMessage` calls and
run completions keeps it, and a `sendMessage` for an identity with a run in
flight is rejected without starting a run. -/
theorem exclusive_of_single_submissions (events : List GuardEvent) (g : GuardState)
    (hg : Exclusive g) (hs : ∀ event ∈ events, event.isSingle = true) :
    Exclusive (guardRun g events).1 := by
  induction events generalizing g with
  | nil => simpa [guardRun] using hg
  | cons event rest ih =>
    simp only [guardRun]
    exact ih _ (exclusive_guardStep g event hg (hs event (List.mem_cons_self _ _)))
      (fun e he => hs e (List.mem_cons_of_mem _ he))

/-- C1 (the code breaks it): one call of `processMultipleUsers` with two
requests of the identity `a1` starts two runs for `a1` that are in flight
together, and neither is rejected with the busy error; taken to completion
both runs reach the backend and both answers are returned. The same happens
when a batch with a request of `a1` arrives while a `sendMessage` run of
`a1` is in flight; and once the first of two overlapping runs has finished
the slot is gone, so a further `sendMessage` for `a1` is accepted while the
second run is still in flight. -/
theorem processMultipleUsers_same_identity_overlap :
    (guardStep ⟨[], []⟩ (.batch ["a1", "a1"] 0)).1.inFlight.count "a1" = 2 ∧
    (guardStep ⟨[], []⟩ (.batch ["a1", "a1"] 0)).2 = [] ∧
    (processMultipleUsers (fun i => i) emptyWorld [(plainEnv, helloA1), (plainEnv, helloA1)]).2
      = .ok ["Hi there".toList, "Hi there".toList] ∧
    (processMultipleUsers (fun i => i) emptyWorld
      [(plainEnv, helloA1), (plainEnv, helloA1)]).1.calls.length = 2 ∧
    (guardRun ⟨[], []⟩ [.send "a1" 0, .batch ["a1"] 1]).1.inFlight.count "a1" = 2 ∧
    (guardRun ⟨[], []⟩ [.send "a1" 0, .batch ["a1"] 1]).2 = [] ∧
    (guardRun ⟨[], []⟩ [.batch ["a1", "a1"] 0, .finish "a1", .send "a1" 1]).1.inFlight.count
      "a1" = 2 ∧
    (guardRun ⟨[], []⟩ [.batch ["a1", "a1"] 0, .finish "a1", .send "a1" 1]).2 = [] ∧
    (guardRun ⟨[], []⟩ [.send "a1" 0, .send "a1" 1]).2 = ["a1"] := by
  decide

/-- C2: `shouldResetAfterThisResponse k` is true exactly when
`k >= CONTEXT_PAIRS_LIMIT - 1`; with the configured limit 6 that is exactly
`k >= 5`, so it is false for `k = 0, 1, 2, 3, 4`. -/
theorem shouldResetAfterThisResponse_iff :
    (∀ k : Int, shouldResetAfterThisResponse k = true ↔ k ≥ CONTEXT_PAIRS_LIMIT - 1) ∧
    (∀ k : Int, shouldResetAfterThisResponse k = true ↔ k ≥ 5) ∧
    (∀ k : Int, 0 ≤ k → k ≤ 4 → shouldResetAfterThisResponse k = false) := by
  refine ⟨?_, ?_, ?_⟩
  · intro k
    simp [shouldResetAfterThisResponse]
  · intro k
    simp [shouldResetAfterThisResponse, CONTEXT_PAIRS_LIMIT]
  · intro k _ h4
    simp [shouldResetAfterThisResponse, CONTEXT_PAIRS_LIMIT]
    omega

theorem length_sliceLast_le {α : Type} (n : Nat) (xs : List α) (hn : n ≠ 0) :
    (sliceLast n xs).length ≤ n := by
  simp [sliceLast, hn]
  omega

theorem truthy_of_trimNonEmpty (s : Text) (h : trimNonEmpty s = true) : truthy s = true := by
  cases s with
  | nil => simp [trimNonEmpty] at h
  | cons c cs => simp [truthy]

theorem length_getRecentMessagesWithCurrent_le (chatHistory : Option (List Msg)) (u a : Text) :
    (getRecentMessagesWithCurrent chatHistory u a).length ≤ 12 := by
  unfold getRecentMessagesWithCurrent
  cases chatHistory with
  | none => simp
  | some history =>
    simp only []
    split
    · simp
    · have h := length_sliceLast_le (2 * (CONTEXT_PAIRS_LIMIT - 1)).toNat
        (history.filter (fun msg => msg.role = "user" || msg.role = "assistant"))
        (by decide)
      have h10 : (2 * (CONTEXT_PAIRS_LIMIT - 1)).toNat = 10 := by decide
      rw [h10] at h
      simp only [List.length_append, List.length_cons, List.length_nil, h10]
      omega

/-! ### Rollover seed -/

theorem filter_validMessage_exchange (front : List Msg) (u a : Text)
    (hu : trimNonEmpty u = true) (ha : trimNonEmpty a = true) :
    (front ++ [Msg.mk "user" u, Msg.mk "assistant" a]).filter validMessage =
      front.filter validMessage ++ [Msg.mk "user" u, Msg.mk "assistant" a] := by
  simp [List.filter_append, List.filter_cons, validMessage, hu, ha,
    truthy_of_trimNonEmpty u hu, truthy_of_trimNonEmpty a ha]

/-- C3 (as stated it fails): with an empty history the seed is empty although
both current texts are non-empty; a current text that is only white space is
removed although it is not empty; and a history entry whose role is neither
`user` nor `assistant` is skipped before the last ten are taken. -/
theorem rolloverSeed_differs_from_spec :
    (rolloverSeed (some []) "Hello".toList "Hi there".toList = [] ∧
      buildRolloverSeedSpec [] "Hello".toList "Hi there".toList =
        [Msg.mk "user" "Hello".toList, Msg.mk "assistant" "Hi there".toList]) ∧
    (rolloverSeed (some [Msg.mk "user" "Hi".toList]) "Hello".toList " ".toList =
        [Msg.mk "user" "Hi".toList, Msg.mk "user" "Hello".toList] ∧
      buildRolloverSeedSpec [Msg.mk "user" "Hi".toList] "Hello".toList " ".toList =
        [Msg.mk "user" "Hi".toList, Msg.mk "user" "Hello".toList,
         Msg.mk "assistant" " ".toList]) ∧
    (rolloverSeed (some [Msg.mk "system" "Be brief".toList]) "Hello".toList "Hi there".toList =
        [Msg.mk "user" "Hello".toList, Msg.mk "assistant" "Hi there".toList] ∧
      buildRolloverSeedSpec [Msg.mk "system" "Be brief".toList] "Hello".toList
          "Hi there".toList =
        [Msg.mk "system" "Be brief".toList, Msg.mk "user" "Hello".toList,
         Msg.mk "assistant" "Hi there".toList]) := by
  decide

/-- C3 (amended): the seed never has more than `2*(limit-1)+2` entries; for a
non-empty history it is the last `2*(limit-1)` of the history entries whose
role is `user` or `assistant`, followed by the just-completed exchange, with
the entries removed whose text is empty or only white space; and then, when
both current texts contain a character that is not white space, its last two
entries are the just-completed exchange. -/
theorem rolloverSeed_nonempty_history (history : List Msg) (u a : Text) :
    (∀ chatHistory : Option (List Msg),
      ((rolloverSeed chatHistory u a).length : Int) ≤ 2 * (CONTEXT_PAIRS_LIMIT - 1) + 2) ∧
    (history ≠ [] →
      rolloverSeed (some history) u a =
        (sliceLast (2 * (CONTEXT_PAIRS_LIMIT - 1)).toNat
            (history.filter (fun msg => msg.role = "user" || msg.role = "assistant")) ++
          [Msg.mk "user" u, Msg.mk "assistant" a]).filter
          (fun msg => !msg.message.isEmpty && msg.message.any (fun c => !jsIsWhitespace c))) ∧
    (history ≠ [] → trimNonEmpty u = true → trimNonEmpty a = true →
      ∃ front, rolloverSeed (some history) u a =
        front ++ [Msg.mk "user" u, Msg.mk "assistant" a]) := by
  have hseed : history ≠ [] → getRecentMessagesWithCurrent (some history) u a =
      sliceLast (2 * (CONTEXT_PAIRS_LIMIT - 1)).toNat
          (history.filter (fun msg => msg.role = "user" || msg.role = "assistant")) ++
        [Msg.mk "user" u, Msg.mk "assistant" a] := by
    intro hne
    have hlen : history.length ≠ 0 := by
      intro h0
      exact hne (List.length_eq_zero.mp h0)
    simp [getRecentMessagesWithCurrent, hlen]
  refine ⟨?_, ?_, ?_⟩
  · intro chatHistory
    have h1 := length_getRecentMessagesWithCurrent_le chatHistory u a
    have h2 : (rolloverSeed chatHistory u a).length ≤
        (getRecentMessagesWithCurrent chatHistory u a).length := List.length_filter_le _ _
    have h3 : (2 : Int) * (CONTEXT_PAIRS_LIMIT - 1) + 2 = 12 := by decide
    rw [h3]
    omega
  · intro hne
    unfold rolloverSeed
    rw [hseed hne]
    rfl
  · intro hne hu ha
    unfold rolloverSeed
    rw [hseed hne, filter_validMessage_exchange _ u a hu ha]
    exact ⟨_, rfl⟩

theorem rolloverSeed_nonempty_history_witness :
    rolloverSeed (some [Msg.mk "user" "Hi".toList, Msg.mk "assistant" "Hello!".toList])
        "Bye".toList "See you".toList =
      [Msg.mk "user" "Hi".toList, Msg.mk "assistant" "Hello!".toList,
       Msg.mk "user" "Bye".toList, Msg.mk "assistant" "See you".toList] ∧
    ∃ front, rolloverSeed (some [Msg.mk "user" "Hi".toList, Msg.mk "assistant" "Hello!".toList])
        "Bye".toList "See you".toList =
      front ++ [Msg.mk "user" "Bye".toList, Msg.mk "assistant" "See you".toList] :=
  ⟨by decide,
   (rolloverSeed_nonempty_history
      [Msg.mk "user" "Hi".toList, Msg.mk "assistant" "Hello!".toList]
      "Bye".toList "See you".toList).2.2 (by decide) (by decide) (by decide)⟩

/-! ### The paths through the tool detour and the persistence step -/

theorem callBackend_ok (env : Env) (st : RunState) (payload : Payload) (response : Response)
    (h : env.create st.callIdx = .ok response) :
    callBackend env st payload = (st.withCall payload, .ok response) := by
  simp only [callBackend, h]

theorem callBackend_error (env : Env) (st : RunState) (payload : Payload) (msg : Text)
    (h : env.create st.callIdx = .error msg) :
    callBackend env st payload = (st.withCall payload, .error (.transport msg)) := by
  simp only [callBackend, h]

theorem updateSessionFields_ok (env : Env) (st : RunState) (chatId : String)
    (updateData : SessionUpdate) (h : env.updateSession st.updIdx = none) :
    updateSessionFields env st chatId updateData = (st.withUpdate chatId updateData, .ok ()) := by
  simp only [updateSessionFields, h]

theorem updateSessionFields_error (env : Env) (st : RunState) (chatId : String)
    (updateData : SessionUpdate) (msg : Text) (h : env.updateSession st.updIdx = some msg) :
    updateSessionFields env st chatId updateData = (st.withFailedUpdate, .error (.store msg)) := by
  simp only [updateSessionFields, h]

theorem toolDetour_of_plain (env : Env) (st : RunState) (params : Params) (prompt : Text)
    (newResponseID : String) (aiText : Text)
    (hplain : includes aiText toolCallMarker = false) :
    toolDetour env st params prompt newResponseID aiText = (st, .ok aiText) := by
  simp [toolDetour, hplain]

theorem toolDetour_of_failed_tool (env : Env) (st : RunState) (params : Params) (prompt : Text)
    (newResponseID : String) (aiText : Text) (outcome : Option ToolResult)
    (hdirective : includes aiText toolCallMarker = true)
    (hexec : executeToolFromCommand env.availableTools (toolCommandOf aiText) params.message
      params.chatId = .ok outcome)
    (hfail : ∀ toolResult, outcome = some toolResult → toolResult.success = false) :
    toolDetour env st params prompt newResponseID aiText = (st, .ok toolFailureText) := by
  cases outcome with
  | none => simp [toolDetour, hdirective, hexec]
  | some toolResult => simp [toolDetour, hdirective, hexec, hfail toolResult rfl]

theorem toolDetour_tool_raised (env : Env) (st : RunState) (params : Params) (prompt : Text)
    (newResponseID : String) (aiText : Text) (err : Error)
    (hdirective : includes aiText toolCallMarker = true)
    (hexec : executeToolFromCommand env.availableTools (toolCommandOf aiText) params.message
      params.chatId = .error err) :
    toolDetour env st params prompt newResponseID aiText = (st, .error err) := by
  simp [toolDetour, hdirective, hexec]

theorem invokeTool_error_is_tool (tool : Handler) (parameters : Text) (chatId : String)
    (err : Error) (h : invokeTool tool parameters chatId = .error err) :
    ∃ msg, err = .tool msg := by
  unfold invokeTool at h
  split at h
  · exact Except.noConfusion h
  · exact Except.noConfusion h
  · exact ⟨_, (Except.error.inj h).symm⟩
  · exact ⟨_, (Except.error.inj h).symm⟩

theorem executeToolFromCommand_error_is_tool (tools : ToolTable)
    (toolCommand currentMessage : Text) (chatId : String) (err : Error)
    (h : executeToolFromCommand tools toolCommand currentMessage chatId = .error err) :
    ∃ msg, err = .tool msg := by
  unfold executeToolFromCommand at h
  split at h
  · exact Except.noConfusion h
  · split at h
    · exact Except.noConfusion h
    · split at h
      · exact Except.noConfusion h
      · next tool _ failure hinvoke =>
        cases h
        exact invokeTool_error_is_tool _ _ _ _ hinvoke

theorem toolDetour_call_failed (env : Env) (st : RunState) (params : Params) (prompt : Text)
    (newResponseID : String) (aiText : Text) (toolResult : ToolResult) (msg : Text)
    (hdirective : includes aiText toolCallMarker = true)
    (hexec : executeToolFromCommand env.availableTools (toolCommandOf aiText) params.message
      params.chatId = .ok (some toolResult))
    (hsucc : toolResult.success = true)
    (hcall : env.create st.callIdx = .error msg) :
    toolDetour env st params prompt newResponseID aiText =
      (st.withCall (followUpPayload params prompt newResponseID aiText toolResult),
       .error (.transport msg)) := by
  simp only [toolDetour, hdirective, if_true, hexec, hsucc, callBackend_error _ _ _ _ hcall,
    followUpPayload]

theorem toolDetour_update_failed (env : Env) (st : RunState) (params : Params) (prompt : Text)
    (newResponseID : String) (aiText : Text) (toolResult : ToolResult) (processed : Response)
    (msg : Text)
    (hdirective : includes aiText toolCallMarker = true)
    (hexec : executeToolFromCommand env.availableTools (toolCommandOf aiText) params.message
      params.chatId = .ok (some toolResult))
    (hsucc : toolResult.success = true)
    (hcall : env.create st.callIdx = .ok processed)
    (hupd : env.updateSession st.updIdx = some msg) :
    toolDetour env st params prompt newResponseID aiText =
      ((st.withCall (followUpPayload params prompt newResponseID aiText
          toolResult)).withFailedUpdate,
       .error (.store msg)) := by
  have hupd2 : env.updateSession
      (st.withCall (followUpPayload params prompt newResponseID aiText toolResult)).updIdx
      = some msg := hupd
  simp only [toolDetour, hdirective, if_true, hexec, hsucc, callBackend_ok _ _ _ _ hcall]
  simp only [followUpPayload] at hupd2 ⊢
  rw [updateSessionFields_error _ _ _ _ _ hupd2]

theorem toolDetour_succeeded (env : Env) (st : RunState) (params : Params) (prompt : Text)
    (newResponseID : String) (aiText : Text) (toolResult : ToolResult) (processed : Response)
    (hdirective : includes aiText toolCallMarker = true)
    (hexec : executeToolFromCommand env.availableTools (toolCommandOf aiText) params.message
      params.chatId = .ok (some toolResult))
    (hsucc : toolResult.success = true)
    (hcall : env.create st.callIdx = .ok processed)
    (hupd : env.updateSession st.updIdx = none) :
    toolDetour env st params prompt newResponseID aiText =
      ((st.withCall (followUpPayload params prompt newResponseID aiText toolResult)).withUpdate
          params.chatId { chatSessionID := some processed.id, sessionLengthCounter := none },
       .ok (orElse (extractResponseText processed) toolResult.message)) := by
  have hupd2 : env.updateSession
      (st.withCall (followUpPayload params prompt newResponseID aiText toolResult)).updIdx
      = none := hupd
  simp only [toolDetour, hdirective, if_true, hexec, hsucc, callBackend_ok _ _ _ _ hcall]
  simp only [followUpPayload] at hupd2 ⊢
  rw [updateSessionFields_ok _ _ _ _ hupd2]

theorem persistSession_normal (env : Env) (st : RunState) (params : Params) (session : Session)
    (currentCounter : Int) (newResponseID : String) (final : Text) :
    persistSession env st params session currentCounter false newResponseID final =
      updateSessionFields env st params.chatId
        { sessionLengthCounter := some (currentCounter + 1),
          chatSessionID := some newResponseID } := by
  simp [persistSession]

theorem persistSession_reset_call_failed (env : Env) (st : RunState) (params : Params)
    (session : Session) (currentCounter : Int) (newResponseID : String) (final : Text)
    (msg : Text) (hcall : env.create st.callIdx = .error msg) :
    persistSession env st params session currentCounter true newResponseID final =
      (st.withCall (resetPayload session (rolloverSeed session.chatHistory params.message final)),
       .error (.transport msg)) := by
  simp only [persistSession, if_true, callBackend_error _ _ _ _ hcall]

theorem persistSession_reset_called (env : Env) (st : RunState) (params : Params)
    (session : Session) (currentCounter : Int) (newResponseID : String) (final : Text)
    (response : Response) (hcall : env.create st.callIdx = .ok response) :
    persistSession env st params session currentCounter true newResponseID final =
      updateSessionFields env
        (st.withCall (resetPayload session (rolloverSeed session.chatHistory params.message final)))
        params.chatId { chatSessionID := some response.id, sessionLengthCounter := some 0 } := by
  simp only [persistSession, if_true, callBackend_ok _ _ _ _ hcall]

/-! ### The body of a run -/

theorem processBody_load_failed (env : Env) (st : RunState) (params : Params) (msg : Text)
    (hload : env.getOrCreateSession = some msg) :
    processBody env st params = (st, .error (.store msg)) := by
  simp only [processBody, processFrom, hload]

theorem processBody_first_failed (env : Env) (st : RunState) (params : Params) (msg : Text)
    (hload : env.getOrCreateSession = none) (hfirst : env.create st.callIdx = .error msg) :
    processBody env st params =
      (st.withCall (firstCallPayload st.world params), .error (.transport msg)) := by
  simp only [processBody, processFrom, hload, callBackend_error _ _ _ _ hfirst, firstCallPayload]

theorem processBody_empty (env : Env) (st : RunState) (params : Params) (first : Response)
    (hload : env.getOrCreateSession = none) (hfirst : env.create st.callIdx = .ok first)
    (htext : truthy (extractResponseText first) = false) :
    processBody env st params =
      (st.withCall (firstCallPayload st.world params), .error .emptyResponse) := by
  simp [processBody, processFrom, hload, callBackend_ok _ _ _ _ hfirst, firstCallPayload, htext]

theorem processBody_detour_failed (env : Env) (st : RunState) (params : Params)
    (first : Response) (after : RunState) (err : Error)
    (hload : env.getOrCreateSession = none) (hfirst : env.create st.callIdx = .ok first)
    (htext : truthy (extractResponseText first) = true)
    (hdetour : toolDetour env (st.withCall (firstCallPayload st.world params)) params
      (createEnhancedSystemPrompt (st.world.sessions params.chatId).customContext
        (st.world.sessions params.chatId).interactionHistory)
      first.id (extractResponseText first) = (after, .error err)) :
    processBody env st params = (after, .error err) := by
  simp only [firstCallPayload] at hdetour
  simp [processBody, processFrom, hload, callBackend_ok _ _ _ _ hfirst, htext, hdetour]

theorem processBody_detour_done (env : Env) (st : RunState) (params : Params)
    (first : Response) (after : RunState) (final : Text)
    (hload : env.getOrCreateSession = none) (hfirst : env.create st.callIdx = .ok first)
    (htext : truthy (extractResponseText first) = true)
    (hdetour : toolDetour env (st.withCall (firstCallPayload st.world params)) params
      (createEnhancedSystemPrompt (st.world.sessions params.chatId).customContext
        (st.world.sessions params.chatId).interactionHistory)
      first.id (extractResponseText first) = (after, .ok final)) :
    processBody env st params =
      ((persistSession env after params (st.world.sessions params.chatId)
          (turnCounter st.world params.chatId)
          (shouldResetAfterThisResponse (turnCounter st.world params.chatId))
          first.id final).1,
       match (persistSession env after params (st.world.sessions params.chatId)
          (turnCounter st.world params.chatId)
          (shouldResetAfterThisResponse (turnCounter st.world params.chatId))
          first.id final).2 with
       | .error err => .error err
       | .ok _ => .ok final) := by
  simp only [firstCallPayload] at hdetour
  simp only [processBody, processFrom, hload, callBackend_ok _ _ _ _ hfirst, htext, hdetour, turnCounter]
  simp only [Bool.not_true, Bool.false_eq_true, if_false]
  split <;> simp_all

/-! ### What each step can do -/

theorem toolDetour_outcome (env : Env) (st : RunState) (params : Params) (prompt : Text)
    (newResponseID : String) (aiText : Text) :
    (includes aiText toolCallMarker = false ∧
      toolDetour env st params prompt newResponseID aiText = (st, .ok aiText)) ∨
    (includes aiText toolCallMarker = true ∧
      toolDetour env st params prompt newResponseID aiText = (st, .ok toolFailureText)) ∨
    (∃ toolResult msg,
      toolDetour env st params prompt newResponseID aiText =
        (st.withCall (followUpPayload params prompt newResponseID aiText toolResult),
         .error (.transport msg))) ∨
    (∃ toolResult msg,
      toolDetour env st params prompt newResponseID aiText =
        ((st.withCall (followUpPayload params prompt newResponseID aiText
            toolResult)).withFailedUpdate,
         .error (.store msg))) ∨
    (∃ toolResult processed,
      env.create st.callIdx = .ok processed ∧
      toolDetour env st params prompt newResponseID aiText =
        ((st.withCall (followUpPayload params prompt newResponseID aiText toolResult)).withUpdate
            params.chatId { chatSessionID := some processed.id, sessionLengthCounter := none },
         .ok (orElse (extractResponseText processed) toolResult.message))) ∨
    (∃ msg,
      includes aiText toolCallMarker = true ∧
      executeToolFromCommand env.availableTools (toolCommandOf aiText) params.message
        params.chatId = .error (.tool msg) ∧
      toolDetour env st params prompt newResponseID aiText = (st, .error (.tool msg))) := by
  cases hincl : includes aiText toolCallMarker with
  | false => exact Or.inl ⟨rfl, toolDetour_of_plain env st params prompt newResponseID aiText hincl⟩
  | true =>
    right
    cases hexec : executeToolFromCommand env.availableTools (toolCommandOf aiText)
        params.message params.chatId with
    | error err =>
      obtain ⟨msg, rfl⟩ := executeToolFromCommand_error_is_tool _ _ _ _ _ hexec
      exact Or.inr (Or.inr (Or.inr (Or.inr ⟨msg, rfl, rfl,
        toolDetour_tool_raised env st params prompt newResponseID aiText _ hincl hexec⟩)))
    | ok outcome =>
      cases outcome with
      | none =>
        refine Or.inl ⟨rfl, toolDetour_of_failed_tool env st params prompt newResponseID aiText
          none hincl hexec ?_⟩
        intro toolResult h
        exact Option.noConfusion h
      | some toolResult =>
        cases hsucc : toolResult.success with
        | false =>
          refine Or.inl ⟨rfl, toolDetour_of_failed_tool env st params prompt newResponseID
            aiText (some toolResult) hincl hexec ?_⟩
          intro other h
          cases h
          exact hsucc
        | true =>
          right
          cases hcall : env.create st.callIdx with
          | error msg =>
            exact Or.inl ⟨toolResult, msg, toolDetour_call_failed env st params prompt
              newResponseID aiText toolResult msg hincl hexec hsucc hcall⟩
          | ok processed =>
            right
            cases hupd : env.updateSession st.updIdx with
            | some msg =>
              exact Or.inl ⟨toolResult, msg, toolDetour_update_failed env st params prompt
                newResponseID aiText toolResult processed msg hincl hexec hsucc hcall hupd⟩
            | none =>
              exact Or.inr (Or.inl ⟨toolResult, processed, rfl, toolDetour_succeeded env st
                params prompt newResponseID aiText toolResult processed hincl hexec hsucc hcall
                hupd⟩)

theorem persistSession_outcome (env : Env) (st : RunState) (params : Params) (session : Session)
    (currentCounter : Int) (reset : Bool) (newResponseID : String) (final : Text) :
    (∃ msg, reset = false ∧
      persistSession env st params session currentCounter reset newResponseID final =
        (st.withFailedUpdate, .error (.store msg))) ∨
    (reset = false ∧
      persistSession env st params session currentCounter reset newResponseID final =
        (st.withUpdate params.chatId
          { sessionLengthCounter := some (currentCounter + 1),
            chatSessionID := some newResponseID }, .ok ())) ∨
    (∃ msg, reset = true ∧
      persistSession env st params session currentCounter reset newResponseID final =
        (st.withCall (resetPayload session (rolloverSeed session.chatHistory params.message final)),
         .error (.transport msg))) ∨
    (∃ msg, reset = true ∧
      persistSession env st params session currentCounter reset newResponseID final =
        ((st.withCall (resetPayload session
            (rolloverSeed session.chatHistory params.message final))).withFailedUpdate,
         .error (.store msg))) ∨
    (∃ response, reset = true ∧ env.create st.callIdx = .ok response ∧
      persistSession env st params session currentCounter reset newResponseID final =
        ((st.withCall (resetPayload session
            (rolloverSeed session.chatHistory params.message final))).withUpdate params.chatId
          { chatSessionID := some response.id, sessionLengthCounter := some 0 }, .ok ())) := by
  cases reset with
  | false =>
    rw [persistSession_normal]
    cases hupd : env.updateSession st.updIdx with
    | some msg => exact Or.inl ⟨msg, rfl, updateSessionFields_error _ _ _ _ _ hupd⟩
    | none => exact Or.inr (Or.inl ⟨rfl, updateSessionFields_ok _ _ _ _ hupd⟩)
  | true =>
    right; right
    cases hcall : env.create st.callIdx with
    | error msg =>
      exact Or.inl ⟨msg, rfl, persistSession_reset_call_failed _ _ _ _ _ _ _ _ hcall⟩
    | ok response =>
      right
      rw [persistSession_reset_called _ _ _ _ _ _ _ _ hcall]
      cases hupd : env.updateSession st.updIdx with
      | some msg =>
        exact Or.inl ⟨msg, rfl, updateSessionFields_error _ _ _ _ _
          (show env.updateSession (st.withCall _).updIdx = some msg from hupd)⟩
      | none =>
        exact Or.inr ⟨response, rfl, rfl, updateSessionFields_ok _ _ _ _
          (show env.updateSession (st.withCall _).updIdx = none from hupd)⟩

theorem toolDetour_error (env : Env) (st : RunState) (params : Params) (prompt : Text)
    (newResponseID : String) (aiText : Text) (after : RunState) (err : Error)
    (hd : toolDetour env st params prompt newResponseID aiText = (after, .error err))
    (hkind : err.isBackendFailure = true) :
    after.world.sessions = st.world.sessions ∧ after.world.updates = st.world.updates ∧
    after.world.calls.length = st.world.calls.length + 1 := by
  rcases toolDetour_outcome env st params prompt newResponseID aiText with
    ⟨_, h⟩ | ⟨_, h⟩ | ⟨r, msg, h⟩ | ⟨r, msg, h⟩ | ⟨r, processed, _, h⟩ | ⟨msg, _, _, h⟩ <;>
  rw [h] at hd <;> cases hd
  · simp [RunState.withCall]
  · exact Bool.noConfusion hkind
  · exact Bool.noConfusion hkind

theorem toolDetour_ok_calls (env : Env) (st : RunState) (params : Params) (prompt : Text)
    (newResponseID : String) (aiText : Text) (after : RunState) (final : Text)
    (hd : toolDetour env st params prompt newResponseID aiText = (after, .ok final)) :
    after = st ∨ after.world.calls.length = st.world.calls.length + 1 := by
  rcases toolDetour_outcome env st params prompt newResponseID aiText with
    ⟨_, h⟩ | ⟨_, h⟩ | ⟨r, msg, h⟩ | ⟨r, msg, h⟩ | ⟨r, processed, _, h⟩ | ⟨msg, _, _, h⟩ <;>
  rw [h] at hd <;> cases hd
  · exact Or.inl rfl
  · exact Or.inl rfl
  · right
    simp [RunState.withCall, RunState.withUpdate]

theorem persistSession_error (env : Env) (st : RunState) (params : Params) (session : Session)
    (currentCounter : Int) (reset : Bool) (newResponseID : String) (final : Text)
    (after : RunState) (err : Error)
    (hp : persistSession env st params session currentCounter reset newResponseID final
      = (after, .error err))
    (hkind : err.isBackendFailure = true) :
    after.world.sessions = st.world.sessions ∧ after.world.updates = st.world.updates ∧
    after.world.calls.length = st.world.calls.length + 1 := by
  rcases persistSession_outcome env st params session currentCounter reset newResponseID final
    with ⟨msg, _, h⟩ | ⟨_, h⟩ | ⟨msg, _, h⟩ | ⟨msg, _, h⟩ | ⟨response, _, _, h⟩ <;>
  rw [h] at hp <;> cases hp
  · exact Bool.noConfusion hkind
  · simp [RunState.withCall]
  · exact Bool.noConfusion hkind

theorem toolDetour_error_not_busy (env : Env) (st : RunState) (params : Params) (prompt : Text)
    (newResponseID : String) (aiText : Text) (after : RunState) (err : Error)
    (hd : toolDetour env st params prompt newResponseID aiText = (after, .error err)) :
    err ≠ .busy := by
  rcases toolDetour_outcome env st params prompt newResponseID aiText with
    ⟨_, h⟩ | ⟨_, h⟩ | ⟨r, msg, h⟩ | ⟨r, msg, h⟩ | ⟨r, processed, _, h⟩ | ⟨msg, _, _, h⟩ <;>
  rw [h] at hd <;> cases hd <;> exact fun e => Error.noConfusion e

theorem persistSession_error_not_busy (env : Env) (st : RunState) (params : Params)
    (session : Session) (currentCounter : Int) (reset : Bool) (newResponseID : String)
    (final : Text) (after : RunState) (err : Error)
    (hp : persistSession env st params session currentCounter reset newResponseID final
      = (after, .error err)) :
    err ≠ .busy := by
  rcases persistSession_outcome env st params session currentCounter reset newResponseID final
    with ⟨msg, _, h⟩ | ⟨_, h⟩ | ⟨msg, _, h⟩ | ⟨msg, _, h⟩ | ⟨response, _, _, h⟩ <;>
  rw [h] at hp <;> cases hp <;> exact fun e => Error.noConfusion e

theorem includes_nil_marker : includes [] toolCallMarker = false := by decide

theorem truthy_of_includes_marker (s : Text) (h : includes s toolCallMarker = true) :
    truthy s = true := by
  cases s with
  | nil => rw [includes_nil_marker] at h; exact Bool.noConfusion h
  | cons c cs => rfl

/-! ### The shape of a run -/

theorem run_of_body (env : Env) (w : World) (params : Params) (after : RunState)
    (res : Except Error Text)
    (h : processBody env (startState env w params) params = (after, res)) :
    processMessageForUser env w params = (releaseSlot after params.chatId, res) := by
  simp only [processMessageForUser, h]

theorem run_load_failed (env : Env) (w : World) (params : Params) (msg : Text)
    (hload : env.getOrCreateSession = some msg) :
    processMessageForUser env w params =
      (releaseSlot (startState env w params) params.chatId, .error (.store msg)) :=
  run_of_body env w params _ _ (processBody_load_failed env _ params msg hload)

theorem run_first_failed (env : Env) (w : World) (params : Params) (msg : Text)
    (hload : env.getOrCreateSession = none) (hfirst : env.create 0 = .error msg) :
    processMessageForUser env w params =
      (releaseSlot (afterFirstCall env w params) params.chatId, .error (.transport msg)) :=
  run_of_body env w params _ _ (processBody_first_failed env _ params msg hload hfirst)

theorem run_empty (env : Env) (w : World) (params : Params) (first : Response)
    (hload : env.getOrCreateSession = none) (hfirst : env.create 0 = .ok first)
    (htext : truthy (extractResponseText first) = false) :
    processMessageForUser env w params =
      (releaseSlot (afterFirstCall env w params) params.chatId, .error .emptyResponse) :=
  run_of_body env w params _ _ (processBody_empty env _ params first hload hfirst htext)

theorem run_detour_failed (env : Env) (w : World) (params : Params) (first : Response)
    (after : RunState) (err : Error)
    (hload : env.getOrCreateSession = none) (hfirst : env.create 0 = .ok first)
    (htext : truthy (extractResponseText first) = true)
    (hd : runDetour env w params first = (after, .error err)) :
    processMessageForUser env w params = (releaseSlot after params.chatId, .error err) :=
  run_of_body env w params _ _
    (processBody_detour_failed env _ params first after err hload hfirst htext hd)

theorem run_detour_done (env : Env) (w : World) (params : Params) (first : Response)
    (after : RunState) (final : Text)
    (hload : env.getOrCreateSession = none) (hfirst : env.create 0 = .ok first)
    (htext : truthy (extractResponseText first) = true)
    (hd : runDetour env w params first = (after, .ok final)) :
    processMessageForUser env w params =
      (releaseSlot (runPersist env w params first after final).1 params.chatId,
       match (runPersist env w params first after final).2 with
       | .error err => .error err
       | .ok _ => .ok final) :=
  run_of_body env w params _ _
    (processBody_detour_done env _ params first after final hload hfirst htext hd)

/-! ### Claims about one run -/

/-- What the normal persistence step leaves in the store: for every
successful run whose turn counter `c` before the call is below
`CONTEXT_PAIRS_LIMIT - 1`, on every path, the stored turn counter is `c + 1`
and the stored continuation token is the id of the first response. -/
theorem normal_persist_stores_first_id (env : Env) (w : World) (params : Params)
    (answer : Text) (first : Response)
    (hok : (processMessageForUser env w params).2 = .ok answer)
    (hfirst : env.create 0 = .ok first)
    (hc : turnCounter w params.chatId < CONTEXT_PAIRS_LIMIT - 1) :
    ((processMessageForUser env w params).1.sessions params.chatId).sessionLengthCounter
      = some (turnCounter w params.chatId + 1) ∧
    ((processMessageForUser env w params).1.sessions params.chatId).chatSessionID
      = some first.id := by
  have hreset : shouldResetAfterThisResponse (turnCounter w params.chatId) = false := by
    simp only [shouldResetAfterThisResponse, decide_eq_false_iff_not, ge_iff_le, not_le]
    exact hc
  cases hload : env.getOrCreateSession with
  | some msg =>
    rw [run_load_failed env w params msg hload] at hok
    exact Except.noConfusion hok
  | none =>
    cases htext : truthy (extractResponseText first) with
    | false =>
      rw [run_empty env w params first hload hfirst htext] at hok
      exact Except.noConfusion hok
    | true =>
      cases hd : runDetour env w params first with
      | mk after res =>
        cases res with
        | error derr =>
          rw [run_detour_failed env w params first after derr hload hfirst htext hd] at hok
          exact Except.noConfusion hok
        | ok final =>
          have hrun := run_detour_done env w params first after final hload hfirst htext hd
          have hnormal : runPersist env w params first after final =
              updateSessionFields env after params.chatId
                { sessionLengthCounter := some (turnCounter w params.chatId + 1),
                  chatSessionID := some first.id } := by
            unfold runPersist
            rw [hreset]
            exact persistSession_normal _ _ _ _ _ _ _
          cases hupd : env.updateSession after.updIdx with
          | some msg =>
            rw [hrun, hnormal, updateSessionFields_error _ _ _ _ msg hupd] at hok
            exact Except.noConfusion hok
          | none =>
            rw [hrun, hnormal, updateSessionFields_ok _ _ _ _ hupd]
            simp [releaseSlot, RunState.withUpdate, applyUpdate]

/-- The direct-answer path below the limit: one backend call, carrying the
stored continuation token (none for a session without one), and the stored
turn counter goes up by one with the id of that response as the new token. -/
theorem direct_answer_persist (env : Env) (w : World) (params : Params)
    (answer : Text) (first : Response)
    (hok : (processMessageForUser env w params).2 = .ok answer)
    (hfirst : env.create 0 = .ok first)
    (hplain : includes (extractResponseText first) toolCallMarker = false)
    (hc : turnCounter w params.chatId < CONTEXT_PAIRS_LIMIT - 1) :
    (processMessageForUser env w params).1.calls = w.calls ++ [firstCallPayload w params] ∧
    ((w.sessions params.chatId).chatSessionID = none →
      (firstCallPayload w params).previous_response_id = none) ∧
    ((processMessageForUser env w params).1.sessions params.chatId).sessionLengthCounter
      = some (turnCounter w params.chatId + 1) ∧
    ((processMessageForUser env w params).1.sessions params.chatId).chatSessionID
      = some first.id := by
  have hstore := normal_persist_stores_first_id env w params answer first hok hfirst hc
  refine ⟨?_, ?_, hstore.1, hstore.2⟩
  · have hreset : shouldResetAfterThisResponse (turnCounter w params.chatId) = false := by
      simp only [shouldResetAfterThisResponse, decide_eq_false_iff_not, ge_iff_le, not_le]
      exact hc
    cases hload : env.getOrCreateSession with
    | some msg =>
      rw [run_load_failed env w params msg hload] at hok
      exact Except.noConfusion hok
    | none =>
      cases htext : truthy (extractResponseText first) with
      | false =>
        rw [run_empty env w params first hload hfirst htext] at hok
        exact Except.noConfusion hok
      | true =>
        have hd : runDetour env w params first =
            (afterFirstCall env w params, .ok (extractResponseText first)) :=
          toolDetour_of_plain env _ params _ first.id (extractResponseText first) hplain
        have hrun := run_detour_done env w params first _ _ hload hfirst htext hd
        have hnormal : runPersist env w params first (afterFirstCall env w params)
            (extractResponseText first) =
            updateSessionFields env (afterFirstCall env w params) params.chatId
              { sessionLengthCounter := some (turnCounter w params.chatId + 1),
                chatSessionID := some first.id } := by
          unfold runPersist
          rw [hreset]
          exact persistSession_normal _ _ _ _ _ _ _
        cases hupd : env.updateSession 0 with
        | some msg =>
          rw [hrun, hnormal, updateSessionFields_error _ _ _ _ msg hupd] at hok
          exact Except.noConfusion hok
        | none =>
          rw [hrun, hnormal, updateSessionFields_ok _ _ _ _ hupd]
          simp [releaseSlot, RunState.withUpdate, afterFirstCall, RunState.withCall, startState]
  · intro hnone
    simp [firstCallPayload, firstPayload, hnone]

/-- C4 (the code breaks it on the tool-detour path): a fresh session of
`a1`, first response a tool directive under the id `resp_1`, the tool
succeeds, and the follow-up call answers under the id `resp_2`. The run
succeeds with the follow-up text; the tool branch stores `resp_2`, and the
normal persistence step then overwrites it with `resp_1`, so the token left
in the store is the id of the first response, not of the last one. The
stored turn counter is 1. -/
theorem tool_detour_token_overwritten :
    (processMessageForUser toolEnv emptyWorld helloA1).2 = .ok "Nothing found".toList ∧
    (processMessageForUser toolEnv emptyWorld helloA1).1.calls.map
      (fun payload => payload.previous_response_id) = [none, some "resp_1"] ∧
    toolEnv.create 1 = .ok (textResponse "resp_2" "Nothing found".toList) ∧
    (processMessageForUser toolEnv emptyWorld helloA1).1.updates =
      [("a1", { chatSessionID := some "resp_2", sessionLengthCounter := none }),
       ("a1", { chatSessionID := some "resp_1", sessionLengthCounter := some 1 })] ∧
    ((processMessageForUser toolEnv emptyWorld helloA1).1.sessions "a1").chatSessionID
      = some "resp_1" ∧
    ((processMessageForUser toolEnv emptyWorld helloA1).1.sessions "a1").sessionLengthCounter
      = some 1 := by
  decide

/-- C5: a successful run whose turn counter before the call is at least
`CONTEXT_PAIRS_LIMIT - 1` and whose first response has no tool directive
issues exactly two backend calls, the normal one and the context-reset one,
the second without continuation token, and leaves in the store the turn
counter 0 and, as continuation token, the id of the response to the
context-reset call. -/
theorem rollover_after_direct_answer (env : Env) (w : World) (params : Params)
    (answer : Text) (first : Response)
    (hok : (processMessageForUser env w params).2 = .ok answer)
    (hfirst : env.create 0 = .ok first)
    (hplain : includes (extractResponseText first) toolCallMarker = false)
    (hc : turnCounter w params.chatId ≥ CONTEXT_PAIRS_LIMIT - 1) :
    ∃ rollover : Response,
      env.create 1 = .ok rollover ∧
      answer = extractResponseText first ∧
      (processMessageForUser env w params).1.calls =
        w.calls ++ [firstCallPayload w params, resetCallPayload w params answer] ∧
      (resetCallPayload w params answer).previous_response_id = none ∧
      ((processMessageForUser env w params).1.sessions params.chatId).sessionLengthCounter
        = some 0 ∧
      ((processMessageForUser env w params).1.sessions params.chatId).chatSessionID
        = some rollover.id := by
  have hreset : shouldResetAfterThisResponse (turnCounter w params.chatId) = true := by
    simpa [shouldResetAfterThisResponse] using hc
  cases hload : env.getOrCreateSession with
  | some msg =>
    rw [run_load_failed env w params msg hload] at hok
    exact Except.noConfusion hok
  | none =>
    cases htext : truthy (extractResponseText first) with
    | false =>
      rw [run_empty env w params first hload hfirst htext] at hok
      exact Except.noConfusion hok
    | true =>
      have hd : runDetour env w params first =
          (afterFirstCall env w params, .ok (extractResponseText first)) :=
        toolDetour_of_plain env _ params _ first.id (extractResponseText first) hplain
      have hrun := run_detour_done env w params first _ _ hload hfirst htext hd
      cases hcall : env.create 1 with
      | error msg =>
        have hp : runPersist env w params first (afterFirstCall env w params)
            (extractResponseText first) =
            ((afterFirstCall env w params).withCall
              (resetCallPayload w params (extractResponseText first)),
             .error (.transport msg)) := by
          unfold runPersist
          rw [hreset]
          exact persistSession_reset_call_failed _ _ _ _ _ _ _ _ hcall
        rw [hrun, hp] at hok
        exact Except.noConfusion hok
      | ok rollover =>
        have hcalled : runPersist env w params first (afterFirstCall env w params)
            (extractResponseText first) =
            updateSessionFields env
              ((afterFirstCall env w params).withCall
                (resetCallPayload w params (extractResponseText first)))
              params.chatId
              { chatSessionID := some rollover.id, sessionLengthCounter := some 0 } := by
          unfold runPersist
          rw [hreset]
          exact persistSession_reset_called _ _ _ _ _ _ _ _ hcall
        cases hupd : env.updateSession 0 with
        | some msg =>
          rw [hrun, hcalled, updateSessionFields_error _ _ _ _ msg hupd] at hok
          exact Except.noConfusion hok
        | none =>
          rw [hrun, hcalled, updateSessionFields_ok _ _ _ _ hupd] at hok ⊢
          have hans : answer = extractResponseText first := (Except.ok.inj hok).symm
          subst hans
          refine ⟨rollover, rfl, rfl, ?_, rfl, ?_, ?_⟩
          · simp [releaseSlot, RunState.withUpdate, RunState.withCall, afterFirstCall, startState]
          · simp [releaseSlot, RunState.withUpdate, RunState.withCall, afterFirstCall,
              startState, applyUpdate]
          · simp [releaseSlot, RunState.withUpdate, RunState.withCall, afterFirstCall,
              startState, applyUpdate]

theorem rollover_after_direct_answer_witness :
    (processMessageForUser plainEnv fiveTurnWorld helloA1).2 = .ok "Hi there".toList ∧
    turnCounter fiveTurnWorld "a1" = 5 ∧
    ∃ rollover : Response,
      plainEnv.create 1 = .ok rollover ∧
      "Hi there".toList = extractResponseText (textResponse "resp_1" "Hi there".toList) ∧
      (processMessageForUser plainEnv fiveTurnWorld helloA1).1.calls =
        fiveTurnWorld.calls ++ [firstCallPayload fiveTurnWorld helloA1,
          resetCallPayload fiveTurnWorld helloA1 "Hi there".toList] ∧
      (resetCallPayload fiveTurnWorld helloA1 "Hi there".toList).previous_response_id = none ∧
      ((processMessageForUser plainEnv fiveTurnWorld helloA1).1.sessions
        helloA1.chatId).sessionLengthCounter = some 0 ∧
      ((processMessageForUser plainEnv fiveTurnWorld helloA1).1.sessions
        helloA1.chatId).chatSessionID = some rollover.id :=
  ⟨by decide, by decide,
   rollover_after_direct_answer plainEnv fiveTurnWorld helloA1 "Hi there".toList
     (textResponse "resp_1" "Hi there".toList) (by decide) rfl (by decide) (by decide)⟩

theorem failed_tool_run (env : Env) (w : World) (params : Params) (first : Response)
    (outcome : Option ToolResult)
    (hload : env.getOrCreateSession = none)
    (hfirst : env.create 0 = .ok first)
    (hdirective : includes (extractResponseText first) toolCallMarker = true)
    (hexec : executeToolFromCommand env.availableTools
      (toolCommandOf (extractResponseText first)) params.message params.chatId = .ok outcome)
    (hfail : ∀ toolResult, outcome = some toolResult → toolResult.success = false) :
    (shouldResetAfterThisResponse (turnCounter w params.chatId) = false →
      (processMessageForUser env w params).1.calls = w.calls ++ [firstCallPayload w params] ∧
      (processMessageForUser env w params).2 =
        match env.updateSession 0 with
        | none => .ok toolFailureText
        | some msg => .error (.store msg)) ∧
    (shouldResetAfterThisResponse (turnCounter w params.chatId) = true →
      (processMessageForUser env w params).1.calls =
        w.calls ++ [firstCallPayload w params, resetCallPayload w params toolFailureText] ∧
      (processMessageForUser env w params).2 =
        match env.create 1 with
        | .error msg => .error (.transport msg)
        | .ok _ =>
          match env.updateSession 0 with
          | none => .ok toolFailureText
          | some msg => .error (.store msg)) := by
  have htext := truthy_of_includes_marker _ hdirective
  have hd : runDetour env w params first = (afterFirstCall env w params, .ok toolFailureText) :=
    toolDetour_of_failed_tool env _ params _ first.id (extractResponseText first) outcome
      hdirective hexec hfail
  have hrun := run_detour_done env w params first _ _ hload hfirst htext hd
  refine ⟨?_, ?_⟩
  · intro hreset
    have hnormal : runPersist env w params first (afterFirstCall env w params) toolFailureText =
        updateSessionFields env (afterFirstCall env w params) params.chatId
          { sessionLengthCounter := some (turnCounter w params.chatId + 1),
            chatSessionID := some first.id } := by
      unfold runPersist
      rw [hreset]
      exact persistSession_normal _ _ _ _ _ _ _
    rw [hrun, hnormal]
    cases hupd : env.updateSession 0 with
    | none =>
      rw [updateSessionFields_ok _ _ _ _ hupd]
      simp [releaseSlot, RunState.withUpdate, afterFirstCall, RunState.withCall, startState]
    | some msg =>
      rw [updateSessionFields_error _ _ _ _ msg hupd]
      simp [releaseSlot, RunState.withFailedUpdate, afterFirstCall, RunState.withCall,
        startState]
  · intro hreset
    rw [hrun]
    cases hcall : env.create 1 with
    | error msg =>
      have hp : runPersist env w params first (afterFirstCall env w params) toolFailureText =
          ((afterFirstCall env w params).withCall (resetCallPayload w params toolFailureText),
           .error (.transport msg)) := by
        unfold runPersist
        rw [hreset]
        exact persistSession_reset_call_failed _ _ _ _ _ _ _ _ hcall
      rw [hp]
      simp [releaseSlot, afterFirstCall, RunState.withCall, startState]
    | ok response =>
      have hcalled : runPersist env w params first (afterFirstCall env w params)
          toolFailureText =
          updateSessionFields env
            ((afterFirstCall env w params).withCall (resetCallPayload w params toolFailureText))
            params.chatId
            { chatSessionID := some response.id, sessionLengthCounter := some 0 } := by
        unfold runPersist
        rw [hreset]
        exact persistSession_reset_called _ _ _ _ _ _ _ _ hcall
      rw [hcalled]
      cases hupd : env.updateSession 0 with
      | none =>
        rw [updateSessionFields_ok _ _ _ _ hupd]
        simp [releaseSlot, RunState.withUpdate, afterFirstCall, RunState.withCall, startState]
      | some msg =>
        rw [updateSessionFields_error _ _ _ _ msg hupd]
        simp [releaseSlot, RunState.withFailedUpdate, afterFirstCall, RunState.withCall,
          startState]

/-- C6 (as stated it fails): the first response asks for a tool that is not
registered, so the tool result has `success = false`; the session update
that follows throws. The run makes no follow-up call, and it returns no
answer: it fails with the error of the store. -/
theorem failed_tool_run_without_answer :
    includes (extractResponseText (textResponse "resp_1" "TOOL_CALL:weather:Paris".toList))
      toolCallMarker = true ∧
    executeToolFromCommand (storeDown unknownToolEnv).availableTools
        (toolCommandOf "TOOL_CALL:weather:Paris".toList) helloA1.message helloA1.chatId =
      .ok (some { success := false, data := none,
                  message := "Tool \"weather\" is not available".toList }) ∧
    (processMessageForUser (storeDown unknownToolEnv) emptyWorld helloA1).1.calls.length = 1 ∧
    (processMessageForUser (storeDown unknownToolEnv) emptyWorld helloA1).2 =
      .error (.store "store down".toList) := by
  decide

/-- C6 (amended): when the first backend response contains the tool
directive and the tool execution gives no result or a result with
`success = false`, the run issues no follow-up call chained off the first
response: its only later backend call is the context-reset call, made when
the turn counter asks for it, and that call has no continuation token. The
final answer of the run is the fixed text `I encountered an error while
processing your request. Please try again.`; it is returned to the caller
when the persistence step that follows succeeds (the session update, after
the context-reset call when that is due), and when that step throws the run
fails with that error and returns no answer. -/
theorem failed_tool_no_followup (env : Env) (w : World) (params : Params) (first : Response)
    (outcome : Option ToolResult)
    (hload : env.getOrCreateSession = none)
    (hfirst : env.create 0 = .ok first)
    (hdirective : includes (extractResponseText first) toolCallMarker = true)
    (hexec : executeToolFromCommand env.availableTools
      (toolCommandOf (extractResponseText first)) params.message params.chatId = .ok outcome)
    (hfail : ∀ toolResult, outcome = some toolResult → toolResult.success = false) :
    (∃ later : List Payload,
      (processMessageForUser env w params).1.calls =
        w.calls ++ firstCallPayload w params :: later ∧
      later.length ≤ 1 ∧ ∀ payload ∈ later, payload.previous_response_id = none) ∧
    (∀ answer, (processMessageForUser env w params).2 = .ok answer →
      answer = "I encountered an error while processing your request. Please try again.".toList) ∧
    (shouldResetAfterThisResponse (turnCounter w params.chatId) = false →
      (processMessageForUser env w params).1.calls = w.calls ++ [firstCallPayload w params] ∧
      (processMessageForUser env w params).2 =
        match env.updateSession 0 with
        | none => .ok "I encountered an error while processing your request. Please try again.".toList
        | some msg => .error (.store msg)) ∧
    (shouldResetAfterThisResponse (turnCounter w params.chatId) = true →
      (processMessageForUser env w params).1.calls =
        w.calls ++ [firstCallPayload w params, resetCallPayload w params "I encountered an error while processing your request. Please try again.".toList] ∧
      (resetCallPayload w params "I encountered an error while processing your request. Please try again.".toList).previous_response_id = none ∧
      (processMessageForUser env w params).2 =
        match env.create 1 with
        | .error msg => .error (.transport msg)
        | .ok _ =>
          match env.updateSession 0 with
          | none => .ok "I encountered an error while processing your request. Please try again.".toList
          | some msg => .error (.store msg)) := by
  have hrun := failed_tool_run env w params first outcome hload hfirst hdirective hexec hfail
  refine ⟨?_, ?_, hrun.1, fun hreset => ⟨(hrun.2 hreset).1, rfl, (hrun.2 hreset).2⟩⟩
  · cases hreset : shouldResetAfterThisResponse (turnCounter w params.chatId) with
    | false => exact ⟨[], (hrun.1 hreset).1, by simp, by simp⟩
    | true =>
      exact ⟨[resetCallPayload w params toolFailureText], (hrun.2 hreset).1, by simp,
        by simp [resetCallPayload, resetPayload]⟩
  · intro answer hanswer
    cases hreset : shouldResetAfterThisResponse (turnCounter w params.chatId) with
    | false =>
      rw [(hrun.1 hreset).2] at hanswer
      split at hanswer
      · exact (Except.ok.inj hanswer).symm
      · exact Except.noConfusion hanswer
    | true =>
      rw [(hrun.2 hreset).2] at hanswer
      split at hanswer
      · exact Except.noConfusion hanswer
      · split at hanswer
        · exact (Except.ok.inj hanswer).symm
        · exact Except.noConfusion hanswer

theorem failed_tool_no_followup_witness :
    includes (extractResponseText (textResponse "resp_1" "TOOL_CALL:weather:Paris".toList))
      toolCallMarker = true ∧
    (processMessageForUser unknownToolEnv emptyWorld helloA1).1.calls =
      emptyWorld.calls ++ [firstCallPayload emptyWorld helloA1] ∧
    (processMessageForUser unknownToolEnv emptyWorld helloA1).2 =
      .ok "I encountered an error while processing your request. Please try again.".toList :=
  ⟨by decide,
   (failed_tool_no_followup unknownToolEnv emptyWorld helloA1
      (textResponse "resp_1" "TOOL_CALL:weather:Paris".toList)
      (some { success := false, data := none,
              message := "Tool \"weather\" is not available".toList })
      rfl rfl (by decide) (by decide)
      (by
        intro toolResult hres
        cases hres
        rfl)).2.2.1 (by decide)⟩

/-! ### What a run returns does not depend on the world it runs in -/

theorem toolDetour_result_indep (env : Env) (st other : RunState) (params : Params)
    (prompt : Text) (newResponseID : String) (aiText : Text)
    (hc : st.callIdx = other.callIdx) (hu : st.updIdx = other.updIdx) :
    (toolDetour env st params prompt newResponseID aiText).2 =
      (toolDetour env other params prompt newResponseID aiText).2 ∧
    (toolDetour env st params prompt newResponseID aiText).1.callIdx =
      (toolDetour env other params prompt newResponseID aiText).1.callIdx ∧
    (toolDetour env st params prompt newResponseID aiText).1.updIdx =
      (toolDetour env other params prompt newResponseID aiText).1.updIdx := by
  obtain ⟨w1, c, u⟩ := st
  obtain ⟨w2, c2, u2⟩ := other
  simp only at hc hu
  subst hc hu
  simp only [toolDetour, callBackend, updateSessionFields, RunState.withCall,
    RunState.withUpdate, RunState.withFailedUpdate]
  cases includes aiText toolCallMarker <;>
  cases executeToolFromCommand env.availableTools (toolCommandOf aiText) params.message
    params.chatId with
  | error err => simp
  | ok outcome =>
    cases outcome with
    | none => simp
    | some toolResult =>
      cases env.create c <;> cases env.updateSession u <;>
        by_cases hs : toolResult.success = true <;> simp [hs]

theorem persistSession_result_indep (env : Env) (st other : RunState) (params : Params)
    (session : Session) (currentCounter : Int) (reset : Bool) (newResponseID : String)
    (final : Text)
    (hc : st.callIdx = other.callIdx) (hu : st.updIdx = other.updIdx) :
    (persistSession env st params session currentCounter reset newResponseID final).2 =
      (persistSession env other params session currentCounter reset newResponseID final).2 := by
  obtain ⟨w1, c, u⟩ := st
  obtain ⟨w2, c2, u2⟩ := other
  simp only at hc hu
  subst hc hu
  simp only [persistSession, callBackend, updateSessionFields, RunState.withCall,
    RunState.withUpdate, RunState.withFailedUpdate]
  cases reset <;> cases env.create c <;> cases env.updateSession u <;> simp

theorem processFrom_result_indep (session : Session) (env : Env) (st other : RunState)
    (params : Params) (hc : st.callIdx = other.callIdx) (hu : st.updIdx = other.updIdx) :
    (processFrom session env st params).2 = (processFrom session env other params).2 := by
  unfold processFrom
  cases env.getOrCreateSession with
  | some msg => rfl
  | none =>
    simp only
    have hcall : (callBackend env st (firstPayload
        (createEnhancedSystemPrompt session.customContext session.interactionHistory)
        params.message session.chatSessionID)).2 =
        (callBackend env other (firstPayload
        (createEnhancedSystemPrompt session.customContext session.interactionHistory)
        params.message session.chatSessionID)).2 := by
      simp only [callBackend, hc]
    rw [← hcall]
    cases (callBackend env st (firstPayload
        (createEnhancedSystemPrompt session.customContext session.interactionHistory)
        params.message session.chatSessionID)).2 with
    | error err => rfl
    | ok response =>
      simp only
      cases truthy (extractResponseText response) with
      | false => rfl
      | true =>
        simp only [Bool.not_true, Bool.false_eq_true, if_false]
        have hd := toolDetour_result_indep env
          (callBackend env st (firstPayload
            (createEnhancedSystemPrompt session.customContext session.interactionHistory)
            params.message session.chatSessionID)).1
          (callBackend env other (firstPayload
            (createEnhancedSystemPrompt session.customContext session.interactionHistory)
            params.message session.chatSessionID)).1
          params
          (createEnhancedSystemPrompt session.customContext session.interactionHistory)
          response.id (extractResponseText response)
          (by simp only [callBackend, RunState.withCall, hc])
          (by simp only [callBackend, RunState.withCall, hu])
        rw [← hd.1]
        cases hres : (toolDetour env (callBackend env st (firstPayload
            (createEnhancedSystemPrompt session.customContext session.interactionHistory)
            params.message session.chatSessionID)).1 params
          (createEnhancedSystemPrompt session.customContext session.interactionHistory)
          response.id (extractResponseText response)).2 with
        | error err => rfl
        | ok final =>
          simp only
          have hp := persistSession_result_indep env _ _ params session
            (session.sessionLengthCounter.getD 0)
            (shouldResetAfterThisResponse (session.sessionLengthCounter.getD 0))
            response.id final hd.2.1 hd.2.2
          rw [← hp]
          cases (persistSession env (toolDetour env (callBackend env st (firstPayload
            (createEnhancedSystemPrompt session.customContext session.interactionHistory)
            params.message session.chatSessionID)).1 params
            (createEnhancedSystemPrompt session.customContext session.interactionHistory)
            response.id (extractResponseText response)).1 params session
            (session.sessionLengthCounter.getD 0)
            (shouldResetAfterThisResponse (session.sessionLengthCounter.getD 0))
            response.id final).2 <;> rfl

theorem runBodies_outcomes (w current : World) (userRequests : List (Env × Params)) :
    (runBodies w.sessions current userRequests).2 =
      userRequests.map (fun request => (processMessageForUser request.1 w request.2).2) := by
  induction userRequests generalizing current with
  | nil => rfl
  | cons request rest ih =>
    obtain ⟨env, params⟩ := request
    simp only [runBodies, List.map_cons]
    rw [ih]
    congr 1
    exact processFrom_result_indep (w.sessions params.chatId) env _ (startState env w params)
      params rfl rfl

theorem runAll_outcomes (w : World) (userRequests : List (Env × Params)) :
    (runAll w userRequests).2 =
      userRequests.map (fun request => (processMessageForUser request.1 w request.2).2) :=
  runBodies_outcomes w (startAll w userRequests) userRequests

theorem length_runAll (w : World) (userRequests : List (Env × Params)) :
    (runAll w userRequests).2.length = userRequests.length := by
  rw [runAll_outcomes, List.length_map]

/-! ### The rejection that the batch reports -/

theorem firstRejection_eq_none {ε α : Type} (settledAt : Nat → Nat) (i : Nat)
    (outcomes : List (Except ε α)) (hall : ∀ o ∈ outcomes, ∃ a, o = .ok a) :
    firstRejection settledAt i outcomes = none := by
  induction outcomes generalizing i with
  | nil => rfl
  | cons o rest ih =>
    obtain ⟨a, ha⟩ := hall o (List.mem_cons_self _ _)
    subst ha
    simp only [firstRejection]
    exact ih (i + 1) (fun o ho => hall o (List.mem_cons_of_mem _ ho))

theorem firstRejection_isSome {ε α : Type} (settledAt : Nat → Nat) (i : Nat)
    (outcomes : List (Except ε α)) (err : ε) (h : .error err ∈ outcomes) :
    ∃ found, firstRejection settledAt i outcomes = some found := by
  induction outcomes generalizing i with
  | nil => simp at h
  | cons o rest ih =>
    cases o with
    | ok a =>
      simp only [firstRejection]
      rcases List.mem_cons.mp h with h | h
      · exact Except.noConfusion h
      · exact ih (i + 1) h
    | error e =>
      simp only [firstRejection]
      cases hrest : firstRejection settledAt (i + 1) rest with
      | none => exact ⟨_, rfl⟩
      | some found =>
        obtain ⟨t2, later⟩ := found
        simp only
        split
        · exact ⟨_, rfl⟩
        · exact ⟨_, rfl⟩

/-- The rejection reported is the one of a failing task that no other
failing task precedes: none settles earlier, and of those that settle at the
same time none stands earlier in the list. -/
theorem firstRejection_earliest {ε α : Type} (settledAt : Nat → Nat) (base : Nat)
    (outcomes : List (Except ε α)) (t : Nat) (err : ε)
    (h : firstRejection settledAt base outcomes = some (t, err)) :
    ∃ k, outcomes[k]? = some (.error err) ∧ t = settledAt (base + k) ∧
      ∀ j other, outcomes[j]? = some (.error other) →
        settledAt (base + k) < settledAt (base + j) ∨
        (settledAt (base + k) = settledAt (base + j) ∧ k ≤ j) := by
  induction outcomes generalizing base t err with
  | nil => simp [firstRejection] at h
  | cons o rest ih =>
    cases o with
    | ok a =>
      simp only [firstRejection] at h
      obtain ⟨k, hk, ht, hmin⟩ := ih (base + 1) t err h
      have hshift : ∀ n, base + 1 + n = base + (n + 1) := fun n => by omega
      refine ⟨k + 1, by simpa using hk, by rw [ht, hshift], ?_⟩
      intro j other hj
      cases j with
      | zero => simp at hj
      | succ j =>
        have hj2 : rest[j]? = some (.error other) := by simpa using hj
        rcases hmin j other hj2 with hlt | ⟨heq, hle⟩
        · left
          rw [← hshift k, ← hshift j]
          exact hlt
        · right
          rw [← hshift k, ← hshift j]
          exact ⟨heq, by omega⟩
    | error e =>
      simp only [firstRejection] at h
      have hshift : ∀ n, base + 1 + n = base + (n + 1) := fun n => by omega
      cases hrest : firstRejection settledAt (base + 1) rest with
      | none =>
        rw [hrest] at h
        simp only [Option.some.injEq, Prod.mk.injEq] at h
        obtain ⟨ht, he⟩ := h
        subst he
        refine ⟨0, by simp, by simpa using ht.symm, ?_⟩
        intro j other hj
        cases j with
        | zero => exact Or.inr ⟨rfl, Nat.le_refl _⟩
        | succ j =>
          exfalso
          have hj2 : rest[j]? = some (.error other) := by simpa using hj
          have hmem : (Except.error other : Except ε α) ∈ rest :=
            List.getElem?_mem hj2
          obtain ⟨found, hfound⟩ := firstRejection_isSome settledAt (base + 1) rest other hmem
          rw [hrest] at hfound
          exact Option.noConfusion hfound
      | some found =>
        obtain ⟨t2, later⟩ := found
        rw [hrest] at h
        simp only at h
        obtain ⟨k, hk, ht2, hmin⟩ := ih (base + 1) t2 later hrest
        by_cases hlt : t2 < settledAt base
        · rw [if_pos hlt] at h
          simp only [Option.some.injEq, Prod.mk.injEq] at h
          obtain ⟨ht, he⟩ := h
          subst he
          refine ⟨k + 1, by simpa using hk, by rw [← ht, ht2, hshift], ?_⟩
          intro j other hj
          cases j with
          | zero =>
            left
            rw [← hshift k, ← ht2]
            simpa using hlt
          | succ j =>
            have hj2 : rest[j]? = some (.error other) := by simpa using hj
            rcases hmin j other hj2 with h1 | ⟨heq, hle⟩
            · left
              rw [← hshift k, ← hshift j]
              exact h1
            · right
              rw [← hshift k, ← hshift j]
              exact ⟨heq, by omega⟩
        · rw [if_neg hlt] at h
          simp only [Option.some.injEq, Prod.mk.injEq] at h
          obtain ⟨ht, he⟩ := h
          subst he
          refine ⟨0, by simp, by simpa using ht.symm, ?_⟩
          intro j other hj
          cases j with
          | zero => exact Or.inr ⟨rfl, Nat.le_refl _⟩
          | succ j =>
            have hj2 : rest[j]? = some (.error other) := by simpa using hj
            have hge : settledAt base ≤ t2 := Nat.le_of_not_lt hlt
            rw [ht2] at hge
            rcases hmin j other hj2 with h1 | ⟨heq, _⟩
            · left
              rw [← hshift j]
              simpa using Nat.lt_of_le_of_lt hge h1
            · rw [heq] at hge
              rcases Nat.lt_or_eq_of_le hge with h2 | h2
              · left
                rw [← hshift j]
                simpa using h2
              · right
                rw [← hshift j]
                exact ⟨by simpa using h2, Nat.zero_le _⟩

theorem map_ok_fulfilledValues {ε α : Type} (outcomes : List (Except ε α))
    (hall : ∀ o ∈ outcomes, ∃ a, o = .ok a) :
    (fulfilledValues outcomes).map Except.ok = outcomes := by
  induction outcomes with
  | nil => rfl
  | cons o rest ih =>
    obtain ⟨a, ha⟩ := hall o (List.mem_cons_self _ _)
    subst ha
    simp only [fulfilledValues, List.map_cons]
    rw [ih (fun o ho => hall o (List.mem_cons_of_mem _ ho))]

/-! ### The batch entry point -/

/-- C7 (as stated it fails): of two requests the first run returns an
answer and the second fails at its backend call; `processMultipleUsers`
does not return the two outcomes, it fails as a whole with the error of the
second run. -/
theorem processMultipleUsers_fails_as_a_whole :
    (runAll emptyWorld [(plainEnv, helloA1), (failingFrom plainEnv 0, helloB2)]).2 =
      [.ok "Hi there".toList, .error (.transport "network down".toList)] ∧
    (processMultipleUsers (fun i => i) emptyWorld
      [(plainEnv, helloA1), (failingFrom plainEnv 0, helloB2)]).2 =
      .error (.transport "network down".toList) := by
  decide

/-- C7 (amended): `processMultipleUsers` starts one run per request, and the
outcome of the i-th run is what `processMessageForUser` returns for the i-th
request on the store as it is when the batch starts. When every run returns
an answer the batch returns the list of the answers, of the same length and
in the same order as the requests. When some run fails, the whole batch
fails and no per-request outcome is returned: the error is the first
rejection, the one of the failing run that settles first (of failing runs
that settle together, the one that stands first in the list). -/
theorem processMultipleUsers_all_or_error (settledAt : Nat → Nat) (w : World)
    (userRequests : List (Env × Params)) :
    (runAll w userRequests).2 =
      userRequests.map (fun request => (processMessageForUser request.1 w request.2).2) ∧
    ((∀ o ∈ (runAll w userRequests).2, ∃ a, o = .ok a) →
      ∃ answers : List Text,
        (processMultipleUsers settledAt w userRequests).2 = .ok answers ∧
        answers.length = userRequests.length ∧
        (runAll w userRequests).2 = answers.map Except.ok) ∧
    ((∃ err, .error err ∈ (runAll w userRequests).2) →
      ∃ (i : Nat) (err : Error),
        (processMultipleUsers settledAt w userRequests).2 = .error err ∧
        (runAll w userRequests).2[i]? = some (.error err) ∧
        ∀ (j : Nat) (other : Error), (runAll w userRequests).2[j]? = some (.error other) →
          settledAt i < settledAt j ∨ (settledAt i = settledAt j ∧ i ≤ j)) := by
  refine ⟨runAll_outcomes w userRequests, ?_, ?_⟩
  · intro hall
    have hmap := map_ok_fulfilledValues _ hall
    refine ⟨fulfilledValues (runAll w userRequests).2, ?_, ?_, hmap.symm⟩
    · simp only [processMultipleUsers, promiseAll, firstRejection_eq_none settledAt 0 _ hall]
    · rw [← length_runAll w userRequests, ← hmap, List.length_map, hmap]
  · intro ⟨err, herr⟩
    obtain ⟨found, hfound⟩ := firstRejection_isSome settledAt 0 _ err herr
    obtain ⟨t, first⟩ := found
    obtain ⟨k, hk, _, hmin⟩ := firstRejection_earliest settledAt 0 _ t first hfound
    refine ⟨k, first, ?_, hk, ?_⟩
    · simp only [processMultipleUsers, promiseAll, hfound]
    · intro j other hj
      simpa using hmin j other hj

theorem processMultipleUsers_all_or_error_witness :
    (∃ answers : List Text,
      (processMultipleUsers (fun i => i) emptyWorld
        [(plainEnv, helloA1), (plainEnv, helloB2)]).2 = .ok answers ∧
      answers.length = [(plainEnv, helloA1), (plainEnv, helloB2)].length ∧
      (runAll emptyWorld [(plainEnv, helloA1), (plainEnv, helloB2)]).2 =
        answers.map Except.ok) ∧
    (processMultipleUsers (fun i => 2 - i) emptyWorld
      [(failingFrom plainEnv 0, helloA1), (storeDown plainEnv, helloB2)]).2 =
      .error (.store "store down".toList) :=
  ⟨(processMultipleUsers_all_or_error (fun i => i) emptyWorld
      [(plainEnv, helloA1), (plainEnv, helloB2)]).2.1
    (by
      have h : (runAll emptyWorld [(plainEnv, helloA1), (plainEnv, helloB2)]).2 =
          [.ok "Hi there".toList, .ok "Hi there".toList] := by decide
      intro o ho
      rw [h] at ho
      simp only [List.mem_cons, List.mem_singleton, List.not_mem_nil, or_false] at ho
      rcases ho with ho | ho <;> exact ⟨_, ho⟩),
   by decide⟩

/-- C8: after any run of `processMessageForUser` for an identity, whatever
the collaborators did (the session load, any backend call or any session
update may have thrown, the text may have been empty, the tool may have
failed), the slot table has no slot for that identity, so the identity is
not busy and a `sendMessage` for it that follows at once is not rejected:
it goes on to `processMessageForUser`. -/
theorem guard_released_after_run (env : Env) (w : World) (params : Params) :
    (processMessageForUser env w params).1.activeUserSessions.get params.chatId = none ∧
    isBusy (processMessageForUser env w params).1.activeUserSessions params.chatId = false ∧
    ∀ (next : Env) (message : Text) (sessionID : Option String),
      sendMessage next (processMessageForUser env w params).1
          { message := message, sessionID := sessionID, chatId := params.chatId } =
        processMessageForUser next (processMessageForUser env w params).1
          { message := message, sessionID := sessionID, chatId := params.chatId } := by
  have hget : (processMessageForUser env w params).1.activeUserSessions.get params.chatId
      = none := SlotTable.get_delete_self _ _
  have hbusy : isBusy (processMessageForUser env w params).1.activeUserSessions params.chatId
      = false := by
    unfold isBusy
    rw [hget]
  refine ⟨hget, hbusy, ?_⟩
  intro next message sessionID
  unfold sendMessage
  rw [if_neg]
  simp only [hbusy]
  exact Bool.false_ne_true

/-- C9 (as stated it fails): the identity has five completed turns, the
first response is a tool directive, the tool succeeds, the follow-up call
answers under the id `resp_2`, and then the context-reset call fails. The
run fails with that transport error, and the stored continuation token has
changed from `resp_0` to `resp_2`: one session update was performed. -/
theorem token_persisted_when_reset_call_fails :
    (processMessageForUser (failingFrom toolEnv 2) fiveTurnWorld helloA1).2 =
      .error (.transport "network down".toList) ∧
    (fiveTurnWorld.sessions "a1").chatSessionID = some "resp_0" ∧
    ((processMessageForUser (failingFrom toolEnv 2) fiveTurnWorld helloA1).1.sessions
      "a1").chatSessionID = some "resp_2" ∧
    (processMessageForUser (failingFrom toolEnv 2) fiveTurnWorld helloA1).1.updates =
      [("a1", { chatSessionID := some "resp_2", sessionLengthCounter := none })] ∧
    (processMessageForUser (failingFrom toolEnv 2) fiveTurnWorld helloA1).1.calls.length = 3 := by
  decide

/-- C9 (amended): when a run fails with the empty-response error or with
the error of a backend call, and the failing call is not the context-reset
call that comes after a completed tool-result follow-up (that is, the run
made at most two backend calls), no session update was performed: the
session store and the list of applied updates are as before the run. -/
theorem no_update_on_backend_failure (env : Env) (w : World) (params : Params) (err : Error)
    (hfail : (processMessageForUser env w params).2 = .error err)
    (hkind : err = .emptyResponse ∨ ∃ msg, err = .transport msg)
    (hcalls : (processMessageForUser env w params).1.calls.length ≤ w.calls.length + 2) :
    (processMessageForUser env w params).1.sessions = w.sessions ∧
    (processMessageForUser env w params).1.updates = w.updates := by
  have hk : err.isBackendFailure = true := by
    rcases hkind with h | ⟨msg, h⟩ <;> subst h <;> rfl
  cases hload : env.getOrCreateSession with
  | some msg =>
    rw [run_load_failed env w params msg hload] at hfail
    cases hfail
    exact Bool.noConfusion hk
  | none =>
    cases hfirst : env.create 0 with
    | error msg =>
      rw [run_first_failed env w params msg hload hfirst]
      exact ⟨rfl, rfl⟩
    | ok first =>
      cases htext : truthy (extractResponseText first) with
      | false =>
        rw [run_empty env w params first hload hfirst htext]
        exact ⟨rfl, rfl⟩
      | true =>
        cases hd : runDetour env w params first with
        | mk after res =>
          cases res with
          | error derr =>
            have hrun := run_detour_failed env w params first after derr hload hfirst htext hd
            rw [hrun] at hfail ⊢
            cases hfail
            have h := toolDetour_error env _ params _ _ _ after _ hd hk
            exact ⟨h.1, h.2.1⟩
          | ok final =>
            have hrun := run_detour_done env w params first after final hload hfirst htext hd
            have h4 := toolDetour_ok_calls env _ params _ _ _ after final hd
            rw [hrun] at hfail hcalls ⊢
            cases hp : runPersist env w params first after final with
            | mk pst pres =>
              rw [hp] at hfail hcalls
              cases pres with
              | ok done => exact Except.noConfusion hfail
              | error perr =>
                cases hfail
                have h5 := persistSession_error env after params _ _ _ _ final pst _ hp hk
                rcases h4 with h4 | h4
                · subst h4
                  exact ⟨h5.1, h5.2.1⟩
                · exfalso
                  have h6 : pst.world.calls.length ≤ w.calls.length + 2 := hcalls
                  have h7 : (afterFirstCall env w params).world.calls.length
                      = w.calls.length + 1 := by
                    simp [afterFirstCall, RunState.withCall, startState]
                  omega

theorem no_update_on_backend_failure_witness :
    (processMessageForUser (failingFrom toolEnv 1) fiveTurnWorld helloA1).2 =
      .error (.transport "network down".toList) ∧
    (processMessageForUser (failingFrom toolEnv 1) fiveTurnWorld helloA1).1.calls.length = 2 ∧
    (processMessageForUser (failingFrom toolEnv 1) fiveTurnWorld helloA1).1.sessions =
      fiveTurnWorld.sessions ∧
    (processMessageForUser (failingFrom toolEnv 1) fiveTurnWorld helloA1).1.updates =
      fiveTurnWorld.updates :=
  ⟨by decide, by decide,
   no_update_on_backend_failure (failingFrom toolEnv 1) fiveTurnWorld helloA1
     (.transport "network down".toList) (by decide) (Or.inr ⟨_, rfl⟩) (by decide)⟩

/-! ### Directive parsing -/

theorem jsSplit_ne_nil (sep : Char) (s : Text) : jsSplit sep s ≠ [] := by
  cases s with
  | nil => simp [jsSplit]
  | cons c cs =>
    unfold jsSplit
    split
    · simp
    · split <;> simp

theorem jsJoin_cons_cons (sep c : Char) (piece : Text) (rest : List Text) :
    jsJoin sep ((c :: piece) :: rest) = c :: jsJoin sep (piece :: rest) := by
  cases rest <;> rfl

theorem jsJoin_jsSplit (sep : Char) (s : Text) : jsJoin sep (jsSplit sep s) = s := by
  induction s with
  | nil => rfl
  | cons c cs ih =>
    unfold jsSplit
    cases hs : jsSplit sep cs with
    | nil => exact absurd hs (jsSplit_ne_nil sep cs)
    | cons piece rest =>
      rw [hs] at ih
      by_cases hc : c = sep
      · rw [if_pos hc]
        subst hc
        show [] ++ c :: jsJoin c (piece :: rest) = c :: cs
        rw [ih]
        rfl
      · rw [if_neg hc]
        simp only
        rw [jsJoin_cons_cons, ih]

theorem jsSplit_append_sep (sep : Char) (xs ys : Text) (hxs : sep ∉ xs) :
    jsSplit sep (xs ++ sep :: ys) = xs :: jsSplit sep ys := by
  induction xs with
  | nil => simp [jsSplit]
  | cons x rest ih =>
    have hx : x ≠ sep := fun e => hxs (e ▸ List.mem_cons_self _ _)
    have hrest : sep ∉ rest := fun h => hxs (List.mem_cons_of_mem _ h)
    rw [List.cons_append, jsSplit, if_neg hx, ih hrest]

theorem jsSplit_of_not_mem (sep : Char) (xs : Text) (hxs : sep ∉ xs) :
    jsSplit sep xs = [xs] := by
  induction xs with
  | nil => rfl
  | cons x rest ih =>
    have hx : x ≠ sep := fun e => hxs (e ▸ List.mem_cons_self _ _)
    have hrest : sep ∉ rest := fun h => hxs (List.mem_cons_of_mem _ h)
    rw [jsSplit, if_neg hx, ih hrest]

theorem takeWhile_until_newline (xs suf : Text) (hxs : '\n' ∉ xs)
    (hsuf : suf = [] ∨ suf.head? = some '\n') :
    (xs ++ suf).takeWhile (fun c => c != '\n') = xs := by
  induction xs with
  | nil =>
    rcases hsuf with h | h
    · subst h; rfl
    · cases suf with
      | nil => rfl
      | cons s rest =>
        simp only [List.head?_cons, Option.some.injEq] at h
        subst h
        simp
  | cons x rest ih =>
    have hx : x ≠ '\n' := fun e => hxs (e ▸ List.mem_cons_self _ _)
    have hrest : '\n' ∉ rest := fun h => hxs (List.mem_cons_of_mem _ h)
    simp [List.takeWhile_cons, hx, ih hrest]

theorem marker_isPrefixOf_self_append (rest : Text) :
    toolCallMarker.isPrefixOf (toolCallMarker ++ rest) = true := by
  simp [toolCallMarker, List.isPrefixOf]

/-- The marker cannot start inside `q` and run over into a following marker:
its last character, the colon, occurs nowhere else in it. -/
theorem marker_not_across (q rest : Text)
    (h : toolCallMarker.isPrefixOf (q ++ toolCallMarker ++ rest) = true) :
    q = [] ∨ toolCallMarker.isPrefixOf q = true := by
  rcases q with _ | ⟨a0, _ | ⟨a1, _ | ⟨a2, _ | ⟨a3, _ | ⟨a4, _ | ⟨a5, _ | ⟨a6, _ | ⟨a7, _ |
    ⟨a8, _ | ⟨a9, q⟩⟩⟩⟩⟩⟩⟩⟩⟩⟩
  · exact Or.inl rfl
  all_goals
    right
    simp [toolCallMarker, List.isPrefixOf] at h ⊢
    try exact h

theorem includes_of_isPrefixOf (s sub : Text) (h : sub.isPrefixOf s = true) :
    includes s sub = true := by
  cases s with
  | nil => exact h
  | cons c cs =>
    rw [includes, h]
    rfl

theorem includes_cons_of_includes (c : Char) (cs sub : Text) (h : includes cs sub = true) :
    includes (c :: cs) sub = true := by
  rw [includes, h, Bool.or_true]

theorem includes_marker_append (pre rest : Text) :
    includes (pre ++ toolCallMarker ++ rest) toolCallMarker = true := by
  induction pre with
  | nil => exact includes_of_isPrefixOf _ _ (marker_isPrefixOf_self_append rest)
  | cons c cs ih => exact includes_cons_of_includes c _ _ ih

theorem includes_cons_false (c : Char) (cs sub : Text) (h : includes (c :: cs) sub = false) :
    sub.isPrefixOf (c :: cs) = false ∧ includes cs sub = false := by
  rw [includes, Bool.or_eq_false_iff] at h
  exact h

theorem matchToolCallHere_marker (n : Char) (rest : Text) (hn : n ≠ '\n') :
    matchToolCallHere (toolCallMarker ++ n :: rest) =
      some (toolCallMarker ++ (n :: rest).takeWhile (fun c => c != '\n')) := by
  unfold matchToolCallHere
  rw [if_pos (marker_isPrefixOf_self_append _)]
  have hdrop : (toolCallMarker ++ n :: rest).drop toolCallMarker.length = n :: rest := by
    simp
  simp only [hdrop]
  simp [List.takeWhile_cons, hn]

theorem matchToolCall_of_here (s found : Text) (h : matchToolCallHere s = some found) :
    matchToolCall s = some found := by
  cases s with
  | nil => simp [matchToolCallHere, toolCallMarker] at h
  | cons c cs => rw [matchToolCall, h]

theorem matchToolCall_cons_of_none (c : Char) (cs : Text)
    (h : matchToolCallHere (c :: cs) = none) :
    matchToolCall (c :: cs) = matchToolCall cs := by
  rw [matchToolCall, h]

theorem matchToolCall_first (pre : Text) (n : Char) (rest : Text)
    (hpre : includes pre toolCallMarker = false) (hn : n ≠ '\n') :
    matchToolCall (pre ++ toolCallMarker ++ n :: rest) =
      some (toolCallMarker ++ (n :: rest).takeWhile (fun c => c != '\n')) := by
  induction pre with
  | nil => exact matchToolCall_of_here _ _ (matchToolCallHere_marker n rest hn)
  | cons c cs ih =>
    obtain ⟨hhere, hrest⟩ := includes_cons_false c cs toolCallMarker hpre
    have hnot : toolCallMarker.isPrefixOf (c :: cs ++ toolCallMarker ++ n :: rest) = false := by
      cases hp : toolCallMarker.isPrefixOf (c :: cs ++ toolCallMarker ++ n :: rest) with
      | false => rfl
      | true =>
        rcases marker_not_across (c :: cs) (n :: rest) hp with h | h
        · exact List.noConfusion h
        · rw [hhere] at h
          exact Bool.noConfusion h
    have hnone : matchToolCallHere (c :: cs ++ toolCallMarker ++ n :: rest) = none := by
      unfold matchToolCallHere
      rw [hnot]
      rfl
    have hstep := matchToolCall_cons_of_none c (cs ++ toolCallMarker ++ n :: rest) hnone
    rw [show c :: cs ++ toolCallMarker ++ n :: rest = c :: (cs ++ toolCallMarker ++ n :: rest)
      from rfl, hstep]
    exact ih hrest

theorem toolCommandOf_first (pre body suf : Text) (n : Char)
    (hpre : includes pre toolCallMarker = false) (hn : n ≠ '\n') (hbody : '\n' ∉ body)
    (hsuf : suf = [] ∨ suf.head? = some '\n') :
    toolCommandOf (pre ++ toolCallMarker ++ n :: body ++ suf) = toolCallMarker ++ n :: body := by
  have hmem : '\n' ∉ n :: body := by
    intro h
    rcases List.mem_cons.mp h with h | h
    · exact hn h.symm
    · exact hbody h
  have h := matchToolCall_first pre n (body ++ suf) hpre hn
  have htake := takeWhile_until_newline (n :: body) suf hmem hsuf
  simp only [List.cons_append, List.append_assoc] at h htake ⊢
  simp only [toolCommandOf, h, htake]

theorem marker_eq : toolCallMarker = "TOOL_CALL".toList ++ [':'] := by decide

theorem parseToolCommand_marker (name tail currentMessage : Text) (hname : ':' ∉ name) :
    parseToolCommand (toolCallMarker ++ name ++ ':' :: tail) currentMessage =
      some (name, orElse tail currentMessage) := by
  have hsplit : jsSplit ':' (toolCallMarker ++ name ++ ':' :: tail) =
      "TOOL_CALL".toList :: name :: jsSplit ':' tail := by
    rw [marker_eq, List.append_assoc, List.append_assoc, List.singleton_append,
      jsSplit_append_sep _ _ _ (by decide), jsSplit_append_sep _ _ _ hname]
  unfold parseToolCommand
  rw [hsplit]
  simp [jsJoin_jsSplit]

theorem parseToolCommand_marker_only (name currentMessage : Text) (hname : ':' ∉ name) :
    parseToolCommand (toolCallMarker ++ name) currentMessage = some (name, currentMessage) := by
  have hsplit : jsSplit ':' (toolCallMarker ++ name) = ["TOOL_CALL".toList, name] := by
    rw [marker_eq, List.append_assoc, List.singleton_append,
      jsSplit_append_sep _ _ _ (by decide), jsSplit_of_not_mem _ _ hname]
  unfold parseToolCommand
  rw [hsplit]
  simp [jsJoin, orElse, truthy]

theorem executeToolFromCommand_of_parse (tools : ToolTable) (tool : Handler)
    (toolCommand currentMessage toolName parameters : Text) (chatId : String)
    (hparse : parseToolCommand toolCommand currentMessage = some (toolName, parameters))
    (htool : tools toolName = some tool) :
    executeToolFromCommand tools toolCommand currentMessage chatId =
      (invokeTool tool parameters chatId).map some := by
  simp only [executeToolFromCommand, hparse, htool]
  cases invokeTool tool parameters chatId <;> rfl

/-- C10: in a model output `prefix ++ "TOOL_CALL:" ++ name ++ ":" ++ params ++
suffix`, where the prefix does not contain the marker, the name is not empty
and has no colon and no line feed, the parameters are not empty and have no
line feed, and the suffix is empty or starts with a line feed, the directive
is found, the matched command is `TOOL_CALL:name:params`, and the split
gives the tool name `name` and the parameters `params`, which is what a
registered handler is called with. When the parameters are left out
(`TOOL_CALL:name` or `TOOL_CALL:name:`), the handler is called with the
original user message. -/
theorem directive_parsing (pre name params suf currentMessage : Text)
    (hpre : includes pre toolCallMarker = false)
    (hname : name ≠ []) (hcolon : ':' ∉ name) (hnl : '\n' ∉ name)
    (hsuf : suf = [] ∨ suf.head? = some '\n') :
    (params ≠ [] → '\n' ∉ params →
      includes (pre ++ toolCallMarker ++ name ++ [':'] ++ params ++ suf) toolCallMarker = true ∧
      toolCommandOf (pre ++ toolCallMarker ++ name ++ [':'] ++ params ++ suf) =
        toolCallMarker ++ name ++ [':'] ++ params ∧
      (jsSplit ':' (toolCommandOf
        (pre ++ toolCallMarker ++ name ++ [':'] ++ params ++ suf))).getD 1 [] = name ∧
      parseToolCommand (toolCommandOf (pre ++ toolCallMarker ++ name ++ [':'] ++ params ++ suf))
        currentMessage = some (name, params) ∧
      ∀ (tools : ToolTable) (tool : Handler) (chatId : String), tools name = some tool →
        executeToolFromCommand tools
          (toolCommandOf (pre ++ toolCallMarker ++ name ++ [':'] ++ params ++ suf))
          currentMessage chatId = (invokeTool tool params chatId).map some) ∧
    (parseToolCommand (toolCommandOf (pre ++ toolCallMarker ++ name ++ suf)) currentMessage =
        some (name, currentMessage) ∧
      ∀ (tools : ToolTable) (tool : Handler) (chatId : String), tools name = some tool →
        executeToolFromCommand tools (toolCommandOf (pre ++ toolCallMarker ++ name ++ suf))
          currentMessage chatId = (invokeTool tool currentMessage chatId).map some) ∧
    (parseToolCommand (toolCommandOf (pre ++ toolCallMarker ++ name ++ [':'] ++ suf))
        currentMessage = some (name, currentMessage) ∧
      ∀ (tools : ToolTable) (tool : Handler) (chatId : String), tools name = some tool →
        executeToolFromCommand tools
          (toolCommandOf (pre ++ toolCallMarker ++ name ++ [':'] ++ suf))
          currentMessage chatId = (invokeTool tool currentMessage chatId).map some) := by
  obtain ⟨n, ns, rfl⟩ := List.exists_cons_of_ne_nil hname
  have hn : n ≠ '\n' := fun e => hnl (e ▸ List.mem_cons_self _ _)
  have hns : '\n' ∉ ns := fun h => hnl (List.mem_cons_of_mem _ h)
  refine ⟨?_, ?_, ?_⟩
  · intro hparams hpnl
    have hbody : '\n' ∉ ns ++ ':' :: params := by
      intro h
      rcases List.mem_append.mp h with h | h
      · exact hns h
      · rcases List.mem_cons.mp h with h | h
        · exact absurd h (by decide)
        · exact hpnl h
    have hcmd : toolCommandOf (pre ++ toolCallMarker ++ (n :: ns) ++ [':'] ++ params ++ suf) =
        toolCallMarker ++ (n :: ns) ++ [':'] ++ params := by
      have h := toolCommandOf_first pre (ns ++ ':' :: params) suf n hpre hn hbody hsuf
      simpa [List.append_assoc] using h
    have hparse : parseToolCommand (toolCallMarker ++ (n :: ns) ++ [':'] ++ params)
        currentMessage = some (n :: ns, params) := by
      have h := parseToolCommand_marker (n :: ns) params currentMessage hcolon
      have htruthy : orElse params currentMessage = params := by
        cases params with
        | nil => exact absurd rfl hparams
        | cons p ps => rfl
      rw [htruthy] at h
      simpa [List.append_assoc] using h
    have hsplit : (jsSplit ':' (toolCallMarker ++ (n :: ns) ++ [':'] ++ params)).getD 1 []
        = n :: ns := by
      have h : jsSplit ':' (toolCallMarker ++ (n :: ns) ++ [':'] ++ params) =
          "TOOL_CALL".toList :: (n :: ns) :: jsSplit ':' params := by
        rw [marker_eq, List.append_assoc, List.append_assoc, List.append_assoc,
          List.singleton_append, jsSplit_append_sep _ _ _ (by decide),
          List.singleton_append, jsSplit_append_sep _ _ _ hcolon]
      rw [h]
      rfl
    refine ⟨?_, hcmd, ?_, ?_, ?_⟩
    · have h := includes_marker_append pre ((n :: ns) ++ [':'] ++ params ++ suf)
      simpa [List.append_assoc] using h
    · rw [hcmd]
      exact hsplit
    · rw [hcmd]
      exact hparse
    · intro tools tool chatId htool
      rw [hcmd]
      exact executeToolFromCommand_of_parse tools tool _ _ _ _ chatId hparse htool
  · have hcmd : toolCommandOf (pre ++ toolCallMarker ++ (n :: ns) ++ suf) =
        toolCallMarker ++ (n :: ns) := by
      have h := toolCommandOf_first pre ns suf n hpre hn hns hsuf
      simpa [List.append_assoc] using h
    have hparse := parseToolCommand_marker_only (n :: ns) currentMessage hcolon
    refine ⟨?_, ?_⟩
    · rw [hcmd]
      exact hparse
    · intro tools tool chatId htool
      rw [hcmd]
      exact executeToolFromCommand_of_parse tools tool _ _ _ _ chatId hparse htool
  · have hbody : '\n' ∉ ns ++ [':'] := by
      intro h
      rcases List.mem_append.mp h with h | h
      · exact hns h
      · rcases List.mem_cons.mp h with h | h
        · exact absurd h (by decide)
        · exact List.not_mem_nil _ h
    have hcmd : toolCommandOf (pre ++ toolCallMarker ++ (n :: ns) ++ [':'] ++ suf) =
        toolCallMarker ++ (n :: ns) ++ [':'] := by
      have h := toolCommandOf_first pre (ns ++ [':']) suf n hpre hn hbody hsuf
      simpa [List.append_assoc] using h
    have hparse : parseToolCommand (toolCallMarker ++ (n :: ns) ++ [':']) currentMessage =
        some (n :: ns, currentMessage) := by
      have h := parseToolCommand_marker (n :: ns) [] currentMessage hcolon
      simpa [List.append_assoc, orElse, truthy] using h
    refine ⟨?_, ?_⟩
    · rw [hcmd]
      exact hparse
    · intro tools tool chatId htool
      rw [hcmd]
      exact executeToolFromCommand_of_parse tools tool _ _ _ _ chatId hparse htool

theorem directive_parsing_witness :
    parseToolCommand
        (toolCommandOf "Sure. TOOL_CALL:searchDatabase:a:b\nThanks".toList)
        "find it".toList = some ("searchDatabase".toList, "a:b".toList) ∧
    parseToolCommand (toolCommandOf "Sure. TOOL_CALL:searchDatabase\nThanks".toList)
        "find it".toList = some ("searchDatabase".toList, "find it".toList) :=
  ⟨((directive_parsing "Sure. ".toList "searchDatabase".toList "a:b".toList "\nThanks".toList
      "find it".toList (by decide) (by decide) (by decide) (by decide)
      (Or.inr (by decide))).1 (by decide) (by decide)).2.2.2.1,
   (directive_parsing "Sure. ".toList "searchDatabase".toList "a:b".toList "\nThanks".toList
      "find it".toList (by decide) (by decide) (by decide) (by decide)
      (Or.inr (by decide))).2.1.1⟩

/-! ### Tool execution -/

theorem safeToolOutcome_of_parse (registered : ToolTable)
    (toolCommand currentMessage toolName parameters : Text) (chatId : String)
    (hparse : parseToolCommand toolCommand currentMessage = some (toolName, parameters))
    (hthrown : ∀ tool, registered toolName = some tool →
      tool parameters chatId ≠ .error .null ∧ tool parameters chatId ≠ .error .undefined) :
    SafeToolOutcome registered toolName parameters chatId
      (executeToolFromCommand (lookupTool registered) toolCommand currentMessage chatId) := by
  unfold SafeToolOutcome
  cases hreg : registered toolName with
  | none =>
    by_cases hproto : toolName ∈ objectPrototypeNames
    · refine ⟨{ success := false, data := none,
                message := "Tool execution failed: ".toList ++
                  "tool.function is not a function".toList },
        ?_, fun _ => ⟨rfl, rfl⟩, ?_, ?_⟩
      · simp only [executeToolFromCommand, hparse, lookupTool, hreg, hproto, if_true, invokeTool]
      · intro tool msg h
        exact Option.noConfusion h
      · intro tool returned h
        exact Option.noConfusion h
    · refine ⟨{ success := false, data := none,
                message := "Tool \"".toList ++ toolName ++ "\" is not available".toList },
        ?_, fun _ => ⟨rfl, rfl⟩, ?_, ?_⟩
      · simp only [executeToolFromCommand, hparse, lookupTool, hreg, hproto, if_false]
      · intro tool msg h
        exact Option.noConfusion h
      · intro tool returned h
        exact Option.noConfusion h
  | some tool =>
    obtain ⟨hnull, hundef⟩ := hthrown tool hreg
    cases hcall : tool parameters chatId with
    | ok returned =>
      refine ⟨returned, ?_, fun h => Option.noConfusion h, ?_, ?_⟩
      · simp only [executeToolFromCommand, hparse, lookupTool, hreg, invokeTool, hcall]
      · intro other msg hother hthrows
        cases hother
        rw [hcall] at hthrows
        exact Except.noConfusion hthrows
      · intro other value hother hreturns
        cases hother
        rw [hcall] at hreturns
        exact Except.ok.inj hreturns
    | error thrown =>
      cases thrown with
      | null => exact absurd hcall hnull
      | undefined => exact absurd hcall hundef
      | withMessage msg =>
        refine ⟨{ success := false, data := none,
                  message := "Tool execution failed: ".toList ++ msg },
          ?_, fun h => Option.noConfusion h, ?_, ?_⟩
        · simp only [executeToolFromCommand, hparse, lookupTool, hreg, invokeTool, hcall]
        · intro other text hother hthrows
          exact ⟨rfl, rfl⟩
        · intro other value hother hreturns
          cases hother
          rw [hcall] at hreturns
          exact Except.noConfusion hreturns

/-- Where the conversion of lines 160-167 works: on a command
`TOOL_CALL:name:params` or `TOOL_CALL:name` (the name without a colon), and
for handlers that throw neither `null` nor `undefined`,
`executeToolFromCommand` returns a result and throws nothing. When `name` is
not a registered tool (an inherited property name included) the result has
`success = false` and `data = null`; when the registered handler throws, the
result has `success = false` and `data = null`; otherwise the result is the
one the handler returned, unchanged. -/
theorem executeToolFromCommand_safe (registered : ToolTable)
    (name currentMessage : Text) (chatId : String) (hname : ':' ∉ name)
    (hthrown : ∀ tool parameters, registered name = some tool →
      tool parameters chatId ≠ .error .null ∧ tool parameters chatId ≠ .error .undefined) :
    (∀ params : Text,
      SafeToolOutcome registered name (orElse params currentMessage) chatId
        (executeToolFromCommand (lookupTool registered)
          (toolCallMarker ++ name ++ [':'] ++ params) currentMessage chatId)) ∧
    SafeToolOutcome registered name currentMessage chatId
      (executeToolFromCommand (lookupTool registered) (toolCallMarker ++ name)
        currentMessage chatId) := by
  refine ⟨?_, ?_⟩
  · intro params
    apply safeToolOutcome_of_parse
    · have h := parseToolCommand_marker name params currentMessage hname
      simpa [List.append_assoc] using h
    · exact fun tool hreg => hthrown tool _ hreg
  · apply safeToolOutcome_of_parse
    · exact parseToolCommand_marker_only name currentMessage hname
    · exact fun tool hreg => hthrown tool _ hreg

theorem executeToolFromCommand_safe_witness :
    ':' ∉ "searchDatabase".toList ∧
    SafeToolOutcome searchTools "searchDatabase".toList "Hello".toList "a1"
      (executeToolFromCommand (lookupTool searchTools) "TOOL_CALL:searchDatabase".toList
        "Hello".toList "a1") :=
  ⟨by decide,
   (executeToolFromCommand_safe searchTools "searchDatabase".toList "Hello".toList "a1"
      (by decide)
      (by
        intro tool parameters hreg
        have htool : tool = fun _ _ =>
            .ok { success := true, data := some "[]".toList,
                  message := "Found 0 results".toList } :=
          (Option.some.inj hreg).symm
        subst htool
        exact ⟨fun h => Except.noConfusion h, fun h => Except.noConfusion h⟩)).2⟩

/-- C11 (the code breaks it): the handler registered as `searchDatabase`
rejects with `null`. On the command `TOOL_CALL:searchDatabase:foo` the
`catch` block reads `error.message` of `null`, and `executeToolFromCommand`
throws a `TypeError` where the claim has it return a result with
`success = false`; the same with `undefined`. The run of
`processMessageForUser` in which the model asks for that tool fails with
that error after its first backend call and returns no answer. A name that
is not registered, and a handler that throws a value with a message, do give
the failure result. -/
theorem executeToolFromCommand_raises_on_null_throw :
    executeToolFromCommand (lookupTool rejectingTools)
        "TOOL_CALL:searchDatabase:foo".toList "Hello".toList "a1" =
      .error (.tool "Cannot read properties of null (reading 'message')".toList) ∧
    executeToolFromCommand (fun _ => some (fun _ _ => .error .undefined))
        "TOOL_CALL:searchDatabase".toList "Hello".toList "a1" =
      .error (.tool "Cannot read properties of undefined (reading 'message')".toList) ∧
    (processMessageForUser rejectingEnv emptyWorld helloA1).2 =
      .error (.tool "Cannot read properties of null (reading 'message')".toList) ∧
    (processMessageForUser rejectingEnv emptyWorld helloA1).1.calls.length = 1 ∧
    executeToolFromCommand (lookupTool rejectingTools)
        "TOOL_CALL:weather:Paris".toList "Hello".toList "a1" =
      .ok (some { success := false, data := none,
                  message := "Tool \"weather\" is not available".toList }) ∧
    executeToolFromCommand
        (fun _ => some (fun _ _ => .error (.withMessage "boom".toList)))
        "TOOL_CALL:searchDatabase:foo".toList "Hello".toList "a1" =
      .ok (some { success := false, data := none,
                  message := "Tool execution failed: boom".toList }) := by
  decide

/-! ### The cleanup sweep -/

theorem foldl_sweep (timeout : Int) (now : Nat) (entries table : SlotTable) :
    entries.foldl
        (fun live entry => if expired timeout now entry.2 then live.delete entry.1 else live)
        table =
      table.filter (fun kept =>
        entries.all (fun entry => !(expired timeout now entry.2 && decide (entry.1 = kept.1)))) := by
  induction entries generalizing table with
  | nil => simp
  | cons entry rest ih =>
    rw [List.foldl_cons]
    cases hexp : expired timeout now entry.2 with
    | true =>
      simp only [if_true]
      rw [ih]
      simp only [SlotTable.delete, List.filter_filter]
      apply List.filter_congr
      intro kept _
      by_cases hk : entry.1 = kept.1
      · have hk2 : kept.1 = entry.1 := hk.symm
        simp [List.all_cons, hexp, hk2]
      · have hk2 : kept.1 ≠ entry.1 := fun e => hk e.symm
        simp [List.all_cons, hexp, hk, hk2]
    | false =>
      simp only [Bool.false_eq_true, if_false]
      rw [ih]
      apply List.filter_congr
      intro kept _
      simp [List.all_cons, hexp]

theorem sweepWith_eq_filter (timeout : Int) (now : Nat) (table : SlotTable)
    (hkeys : (table.map Prod.fst).Nodup) :
    sweepWith timeout now table = table.filter (fun entry => !expired timeout now entry.2) := by
  unfold sweepWith
  rw [foldl_sweep]
  apply List.filter_congr
  intro kept hkept
  cases hexp : expired timeout now kept.2 with
  | true =>
    simp only [Bool.not_true, List.all_eq_false]
    exact ⟨kept, hkept, by simp [hexp]⟩
  | false =>
    simp only [Bool.not_false, List.all_eq_true]
    intro entry hentry
    by_cases hk : entry.1 = kept.1
    · have hsame : entry = kept := List.inj_on_of_nodup_map hkeys hentry hkept hk
      subst hsame
      simp [hexp]
    · simp [hk]

/-- C12 (the code breaks it): the slot of `a1` is marked busy and its last
request is older than the timeout. The sweep removes it, where the claim has
a busy slot never removed; after the sweep `a1` is no longer busy although
its run has not completed, and a `sendMessage` for `a1` is accepted and
answered instead of being rejected. -/
theorem cleanupSweep_removes_busy_slot :
    cleanupSweep 300001 [("a1", { isProcessing := true, lastRequestTime := 0 })] = [] ∧
    reapSpec SWEEP_TIMEOUT 300001 [("a1", { isProcessing := true, lastRequestTime := 0 })] =
      [("a1", { isProcessing := true, lastRequestTime := 0 })] ∧
    isBusy (markProcessing [] "a1" 0) "a1" = true ∧
    isBusy (cleanupSweep 300001 (markProcessing [] "a1" 0)) "a1" = false ∧
    (sendMessage plainEnv
      { emptyWorld with activeUserSessions := markProcessing [] "a1" 0 } helloA1).2 =
      .error .busy ∧
    (sendMessage plainEnv
      { emptyWorld with
        activeUserSessions := cleanupSweep 300001 (markProcessing [] "a1" 0) } helloA1).2 =
      .ok "Hi there".toList := by
  decide

/-- What the sweep does: for every slot table with one entry per identity,
every current time and every timeout, it removes exactly the slots whose
last request is older than the timeout (`now - lastRequestTime > timeout`)
and leaves every other slot unchanged and in place; `isProcessing` is not
read. The periodic sweep of the source is the one with the timeout of five
minutes. -/
theorem sweep_removes_exactly_expired (timeout : Int) (now : Nat) (table : SlotTable)
    (hkeys : (table.map Prod.fst).Nodup) :
    sweepWith timeout now table = table.filter (fun entry => !expired timeout now entry.2) ∧
    (∀ entry, entry ∈ sweepWith timeout now table ↔
      entry ∈ table ∧ ¬ ((now : Int) - (entry.2.lastRequestTime : Int) > timeout)) ∧
    cleanupSweep now table = table.filter (fun entry => !expired (5 * 60 * 1000) now entry.2) := by
  have h := sweepWith_eq_filter timeout now table hkeys
  refine ⟨h, ?_, sweepWith_eq_filter _ now table hkeys⟩
  intro entry
  rw [h, List.mem_filter]
  simp [expired]

theorem sweep_removes_exactly_expired_witness :
    sweepWith 10 100
        [("a1", { isProcessing := true, lastRequestTime := 0 }),
         ("b2", { isProcessing := false, lastRequestTime := 95 }),
         ("c3", { isProcessing := false, lastRequestTime := 5 })] =
      [("b2", { isProcessing := false, lastRequestTime := 95 })] :=
  ((sweep_removes_exactly_expired 10 100
      [("a1", { isProcessing := true, lastRequestTime := 0 }),
       ("b2", { isProcessing := false, lastRequestTime := 95 }),
       ("c3", { isProcessing := false, lastRequestTime := 5 })] (by decide)).1).trans
    (by decide)

end Chatbot
